import Mathlib

/-!
Verification development for the Sentinel incident-analysis core
(`src/agent/core.py`, `src/agent/agents/*.py`, `src/tools/registry.py`,
`src/monitoring/tracer.py`, `src/protocols/a2a.py`).

The Python code is shallowly embedded: dynamic JSON values become an
inductive `Json`, Python exceptions become `Except PyErr`, the mutable
orchestrator state (gateway call counter, decision tracer, event queue,
message bus) becomes an explicit state record threaded through a state
monad `M`.  The language-model gateway and the tool backend are the
external collaborators of the spec and are modelled as function
parameters, so theorems quantify over every behaviour of theirs.
-/

namespace Sentinel

/-- Characters that are awkward to quote under the surrounding tooling. -/
def quoteChar : Char := Char.ofNat 34

def backslashChar : Char := Char.ofNat 92

def lbraceChar : Char := Char.ofNat 123

def rbraceChar : Char := Char.ofNat 125

def backtickChar : Char := Char.ofNat 96

/-- Dynamic JSON value, the embedding of Python dict/list/str/num/bool/None
payloads flowing between the stages.  Numbers are rationals (Python floats
are used only as exact decimal literals in this code base). -/
inductive Json where
  | null
  | bool (b : Bool)
  | num (q : ℚ)
  | str (s : String)
  | arr (xs : List Json)
  | obj (kvs : List (String × Json))
deriving Repr

/-- Embedded Python exception: either an ordinary exception with a message
(`except Exception`) or `asyncio.TimeoutError` raised by a fired
`asyncio.wait_for` deadline. -/
inductive PyErr where
  | exc (msg : String)
  | timeoutFired
deriving Repr, DecidableEq

/-- `True` for the characters Python's `str.strip()` / `\s` treat as
whitespace (space, tab, newline, carriage return, vertical tab, form feed). -/
def pyIsSpace (c : Char) : Bool :=
  c == ' ' || c == Char.ofNat 9 || c == Char.ofNat 10 || c == Char.ofNat 13
    || c == Char.ofNat 11 || c == Char.ofNat 12

/-- Whitespace skipped by the JSON grammar (space, tab, newline, CR). -/
def jsonWsChar (c : Char) : Bool :=
  c == ' ' || c == Char.ofNat 9 || c == Char.ofNat 10 || c == Char.ofNat 13

def skipWs (cs : List Char) : List Char := cs.dropWhile jsonWsChar

/-- Escape table of JSON string literals (`\u` escapes are not used by the
code base and are rejected by the model). -/
def escChar (c : Char) : Option Char :=
  if c == quoteChar then some quoteChar
  else if c == backslashChar then some backslashChar
  else if c == '/' then some '/'
  else if c == 'n' then some (Char.ofNat 10)
  else if c == 't' then some (Char.ofNat 9)
  else if c == 'r' then some (Char.ofNat 13)
  else if c == 'b' then some (Char.ofNat 8)
  else if c == 'f' then some (Char.ofNat 12)
  else none

/-- Parse the body of a JSON string (after the opening quote), returning the
content and the remainder after the closing quote. -/
def parseStrAux : List Char → Option (List Char × List Char)
  | [] => none
  | c :: cs =>
    if c == quoteChar then some ([], cs)
    else if c == backslashChar then
      match cs with
      | [] => none
      | e :: cs2 =>
        match escChar e with
        | some ch =>
          match parseStrAux cs2 with
          | some (s, r) => some (ch :: s, r)
          | none => none
        | none => none
    else
      match parseStrAux cs with
      | some (s, r) => some (c :: s, r)
      | none => none

def digitVal (c : Char) : Nat := c.toNat - 48

/-- Parse an unsigned decimal integer (at least one digit). -/
def parseDigits : List Char → Option (Nat × Nat × List Char)
  | cs =>
    let ds := cs.takeWhile Char.isDigit
    let rest := cs.dropWhile Char.isDigit
    if ds.isEmpty then none
    else some (ds.foldl (fun acc c => acc * 10 + digitVal c) 0, ds.length, rest)

/-- Parse a JSON number (optional minus, integer part, optional fraction;
exponents are not used by this code base and are rejected). -/
def parseNum (cs : List Char) : Option (ℚ × List Char) :=
  let (neg, cs1) :=
    match cs with
    | c :: rest => if c == '-' then (true, rest) else (false, cs)
    | [] => (false, cs)
  match parseDigits cs1 with
  | none => none
  | some (ip, _, cs2) =>
    let (q, cs3) :=
      match cs2 with
      | c :: rest =>
        if c == '.' then
          match parseDigits rest with
          | some (fp, k, cs4) => (((ip : ℚ) + (fp : ℚ) / ((10 : ℚ) ^ k)), cs4)
          | none => ((ip : ℚ), cs2)
        else ((ip : ℚ), cs2)
      | [] => ((ip : ℚ), cs2)
    some (if neg then -q else q, cs3)

mutual

/-- Recursive-descent JSON value parser (fuel-indexed; the fuel used by
`jsonLoads` always suffices because every recursive call consumes input). -/
def parseVal : Nat → List Char → Option (Json × List Char)
  | 0, _ => none
  | fuel + 1, cs =>
    match skipWs cs with
    | [] => none
    | c :: rest =>
      if c == quoteChar then
        match parseStrAux rest with
        | some (s, r) => some (.str (String.mk s), r)
        | none => none
      else if c == lbraceChar then parseObjTail fuel rest
      else if c == '[' then parseArrTail fuel rest
      else if c == 't' then
        match rest with
        | 'r' :: 'u' :: 'e' :: r => some (.bool true, r)
        | _ => none
      else if c == 'f' then
        match rest with
        | 'a' :: 'l' :: 's' :: 'e' :: r => some (.bool false, r)
        | _ => none
      else if c == 'n' then
        match rest with
        | 'u' :: 'l' :: 'l' :: r => some (.null, r)
        | _ => none
      else if c.isDigit || c == '-' then
        match parseNum (c :: rest) with
        | some (q, r) => some (.num q, r)
        | none => none
      else none

/-- Parse the rest of an array after `[`. -/
def parseArrTail : Nat → List Char → Option (Json × List Char)
  | 0, _ => none
  | fuel + 1, cs =>
    match skipWs cs with
    | ']' :: r => some (.arr [], r)
    | cs1 =>
      match parseArrItems fuel cs1 with
      | some (xs, r) => some (.arr xs, r)
      | none => none

/-- Parse one or more comma-separated array items followed by `]`. -/
def parseArrItems : Nat → List Char → Option (List Json × List Char)
  | 0, _ => none
  | fuel + 1, cs =>
    match parseVal fuel cs with
    | none => none
    | some (v, r) =>
      match skipWs r with
      | ',' :: r2 =>
        match parseArrItems fuel r2 with
        | some (xs, r3) => some (v :: xs, r3)
        | none => none
      | ']' :: r2 => some ([v], r2)
      | _ => none

/-- Parse the rest of an object after the opening brace. -/
def parseObjTail : Nat → List Char → Option (Json × List Char)
  | 0, _ => none
  | fuel + 1, cs =>
    match skipWs cs with
    | c :: r =>
      if c == rbraceChar then some (.obj [], r)
      else
        match parseObjItems fuel (c :: r) with
        | some (kvs, r2) => some (.obj kvs, r2)
        | none => none
    | [] => none

/-- Parse one or more `"key": value` members followed by the closing brace. -/
def parseObjItems : Nat → List Char → Option (List (String × Json) × List Char)
  | 0, _ => none
  | fuel + 1, cs =>
    match skipWs cs with
    | c :: r =>
      if c == quoteChar then
        match parseStrAux r with
        | none => none
        | some (k, r2) =>
          match skipWs r2 with
          | ':' :: r3 =>
            match parseVal fuel r3 with
            | none => none
            | some (v, r4) =>
              match skipWs r4 with
              | ',' :: r5 =>
                match parseObjItems fuel r5 with
                | some (kvs, r6) => some ((String.mk k, v) :: kvs, r6)
                | none => none
              | c2 :: r5 =>
                if c2 == rbraceChar then some ([(String.mk k, v)], r5)
                else none
              | [] => none
          | _ => none
      else none
    | [] => none

end

/-- Model of Python's `json.loads`: parse a complete JSON document, requiring
only whitespace after the value.  Returns `none` where `json.loads` raises
`JSONDecodeError`. -/
def jsonLoads (s : String) : Option Json :=
  match parseVal (s.length + 4) s.data with
  | some (v, rest) => if (skipWs rest).isEmpty then some v else none
  | none => none

/-- `json.loads` with its exception made explicit. -/
def jsonLoadsExc (s : String) : Except PyErr Json :=
  match jsonLoads s with
  | some v => .ok v
  | none => .error (.exc "json.decoder.JSONDecodeError")

/-- One pass of `re.sub(r"` followed by "``(?:json)?\\s*" and `", "", text)`:
delete every markdown fence marker together with an optional `json` tag and
the following whitespace run. -/
def stripFencesAux : Nat → List Char → List Char
  | 0, cs => cs
  | fuel + 1, cs =>
    match cs with
    | [] => []
    | c :: rest =>
      if c == backtickChar then
        match rest with
        | c2 :: c3 :: rest2 =>
          if c2 == backtickChar && c3 == backtickChar then
            let afterTag :=
              match rest2 with
              | 'j' :: 's' :: 'o' :: 'n' :: r => r
              | _ => rest2
            stripFencesAux fuel (afterTag.dropWhile pyIsSpace)
          else c :: stripFencesAux fuel rest
        | _ => c :: stripFencesAux fuel rest
      else c :: stripFencesAux fuel rest

def stripFences (cs : List Char) : List Char := stripFencesAux (cs.length + 1) cs

/-- Python `str.strip()`. -/
def pyStrip (cs : List Char) : List Char :=
  ((cs.dropWhile pyIsSpace).reverse.dropWhile pyIsSpace).reverse

/-- Python `str.rstrip(c)` for one character. -/
def pyRstripChar (c : Char) (cs : List Char) : List Char :=
  (cs.reverse.dropWhile (· == c)).reverse

/-- `stripped[stripped.find(lbrace) : stripped.rfind(rbrace) + 1]` with the
`start >= 0 and end > start` guard of the source: the substring from the
first opening brace to the last closing brace, if well formed. -/
def braceSlice (cs : List Char) : Option (List Char) :=
  match cs.findIdx? (· == lbraceChar) with
  | none => none
  | some i =>
    match cs.reverse.findIdx? (· == rbraceChar) with
    | none => none
    | some k =>
      let j := cs.length - 1 - k
      if i < j + 1 then some ((cs.drop i).take (j + 1 - i)) else none

/-- The `stripped` local of `extract_json`: fences deleted, whitespace
stripped, trailing backticks removed. -/
def extractStripped (text : String) : String :=
  String.mk (pyRstripChar backtickChar (pyStrip (stripFences text.data)))

/-- Embedding of `extract_json` (`src/agent/agents/__init__.py`), with every
Python `try`/`except` around `json.loads` made explicit so that the absence
of escaping exceptions is a theorem rather than a convention. -/
def extract_jsonE (text : String) : Except PyErr (Option Json) :=
  match jsonLoadsExc (extractStripped text) with
  | .ok v => .ok (some v)
  | .error _ =>
    match braceSlice (extractStripped text).data with
    | some sub =>
      match jsonLoadsExc (String.mk sub) with
      | .ok v => .ok (some v)
      | .error _ => .ok none
    | none => .ok none

/-- Total version of `extract_json` as its callers see it. -/
def extract_json (text : String) : Option Json :=
  match extract_jsonE text with
  | .ok r => r
  | .error _ => none

def Json.isObj : Json → Bool
  | .obj _ => true
  | _ => false

/-- Model of `json.dumps` (string escaping and Python float formatting are
represented, not byte-identical; the dumped text only ever feeds prompt
strings, which no control flow inspects). -/
def Json.dumps : Json → String
  | .null => "null"
  | .bool true => "true"
  | .bool false => "false"
  | .num q => toString q
  | .str s => String.mk (quoteChar :: s.data ++ [quoteChar])
  | .arr xs =>
    "[" ++ String.intercalate ", " (xs.attach.map (fun x => Json.dumps x.1)) ++ "]"
  | .obj kvs =>
    "\x7b" ++ String.intercalate ", "
      (kvs.attach.map (fun kv =>
        String.mk (quoteChar :: kv.1.1.data ++ [quoteChar]) ++ ": " ++ Json.dumps kv.1.2))
      ++ "\x7d"
decreasing_by
  · simp_wf
    have h := List.sizeOf_lt_of_mem x.2
    omega
  · simp_wf
    have h := List.sizeOf_lt_of_mem kv.2
    obtain ⟨⟨a, b⟩, hmem⟩ := kv
    simp [Prod.mk.sizeOf_spec] at h ⊢
    omega

/-- Python truthiness of a JSON value. -/
def pyTruthy : Json → Bool
  | .null => false
  | .bool b => b
  | .num q => decide (q ≠ 0)
  | .str s => !s.isEmpty
  | .arr xs => !xs.isEmpty
  | .obj kvs => !kvs.isEmpty

/-- Truthiness of `d.get(k)`-style results (`None` is falsy). -/
def pyTruthyOpt : Option Json → Bool
  | none => false
  | some v => pyTruthy v

/-- Python `str(v)` as used in f-string interpolation (container rendering
approximated by `dumps`; only prompt text depends on it). -/
def pyStr : Json → String
  | .str s => s
  | .num q => toString q
  | .bool true => "True"
  | .bool false => "False"
  | .null => "None"
  | .arr xs => Json.dumps (.arr xs)
  | .obj kvs => Json.dumps (.obj kvs)

/-- `v.get(k)`: dictionary lookup, `AttributeError` on non-dicts. -/
def pyGetE (v : Json) (k : String) : Except PyErr (Option Json) :=
  match v with
  | .obj kvs => .ok (kvs.lookup k)
  | _ => .error (.exc ("AttributeError: get on " ++ pyStr v))

/-- `v.get(k, d)`. -/
def pyGetD (v : Json) (k : String) (d : Json) : Except PyErr Json :=
  (pyGetE v k).map (fun o => o.getD d)

/-- `v[k]`: subscript access, `KeyError` when the key is absent,
`TypeError` on non-dicts. -/
def pyGetItemE (v : Json) (k : String) : Except PyErr Json :=
  match v with
  | .obj kvs =>
    match kvs.lookup k with
    | some r => .ok r
    | none => .error (.exc ("KeyError: " ++ k))
  | _ => .error (.exc "TypeError: subscript on non-dict")

/-- Python iteration over a value: lists yield elements, strings yield
one-character strings, dicts yield their keys; the rest raise `TypeError`. -/
def iterE : Json → Except PyErr (List Json)
  | .arr xs => .ok xs
  | .str s => .ok (s.data.map (fun c => .str (String.mk [c])))
  | .obj kvs => .ok (kvs.map (fun kv => .str kv.1))
  | _ => .error (.exc "TypeError: not iterable")

/-- `sep.join(v)`: iterates `v` and requires every element to be a string. -/
def joinE (sep : String) (v : Json) : Except PyErr String := do
  let elems ← iterE v
  let strs ← elems.mapM (fun e =>
    match e with
    | .str s => Except.ok s
    | _ => Except.error (.exc "TypeError: join on non-str"))
  pure (String.intercalate sep strs)

/-! ## Data model (src/agent/models.py, src/agent/llm_client.py) -/

structure TokenUsage where
  input_tokens : Nat
  output_tokens : Nat
deriving Repr

def TokenUsage.total (u : TokenUsage) : Nat := u.input_tokens + u.output_tokens

def addUsage (u : TokenUsage) (v : TokenUsage) : TokenUsage :=
  ⟨u.input_tokens + v.input_tokens, u.output_tokens + v.output_tokens⟩

/-- One requested tool invocation inside a gateway response
(`{id, name, input}` in the source). -/
structure LLMToolUse where
  id : String
  name : String
  input : Json
deriving Repr

/-- Standardized LLM response (`Response` in src/agent/llm_client.py). -/
structure Response where
  content : String
  tool_calls : List LLMToolUse
  usage : TokenUsage
deriving Repr

inductive Severity where
  | critical | high | medium | low
deriving Repr, DecidableEq

/-- `Alert` (timestamp kept as its ISO rendering: only interpolated into
prompt text). -/
structure Alert where
  service : String
  description : String
  severity : Severity
  timestamp : String
  metadata : Json
deriving Repr

def Severity.show : Severity → String
  | .critical => "critical"
  | .high => "high"
  | .medium => "medium"
  | .low => "low"

/-- `ToolCall` record; latency is modelled as 0 (wall-clock time is outside
the model) and the LLM-side cost of a tool call is 0 as in the source. -/
structure ToolCallRec where
  tool_name : String
  arguments : Json
  result : Json
  latency_ms : ℚ
  cost_usd : ℚ
deriving Repr

/-- `AgentStep` (the construction timestamp is outside the model; no claim
reads it). -/
structure AgentStep where
  agent_name : String
  action : String
  reasoning : String
  tool_calls : List ToolCallRec
  tokens_used : Nat
  cost_usd : ℚ
deriving Repr

inductive MsgType where
  | delegate | respond | escalate
deriving Repr, DecidableEq

structure AgentMessage where
  from_agent : String
  to_agent : String
  message_type : MsgType
  content : Json
  trace_id : String
deriving Repr

structure IncidentReport where
  incident_id : String
  alert : Alert
  summary : String
  root_cause : String
  confidence_score : ℚ
  remediation_steps : List String
  agent_trace : List AgentStep
  total_tokens : Nat
  total_cost_usd : ℚ
  duration_seconds : ℚ
  requires_human_approval : Bool
deriving Repr

/-- Payload of a stream event: empty, a small key/value map, the final
report, or the internal `{"_done": True}` completion sentinel. -/
inductive EvData where
  | emptyD
  | kv (kvs : List (String × Json))
  | reportPayload (r : IncidentReport)
  | doneSentinel
deriving Repr

/-- Modelled from the spec: `StreamEvent` is absent from
`src/agent/models.py` (the checked-in copy predates streaming) although
`src/agent/core.py` and the tests construct it; its shape — event kind,
optional stage name, payload map — follows spec section 3. -/
structure StreamEvent where
  event_type : String
  agent_name : Option String
  data : EvData
deriving Repr

/-! ## Conversation and gateway -/

/-- A content block of a conversation turn.  `tool_result` content is the
`json.dumps` of the tool result, as in the source. -/
inductive Block where
  | text (s : String)
  | tool_use (id : String) (name : String) (input : Json)
  | tool_result (tool_use_id : String) (content : String)
deriving Repr

/-- One conversation turn (plain string content is modelled as a single
`text` block). -/
structure Message where
  role : String
  blocks : List Block
deriving Repr

/-- Tool schema passed to the gateway.  Only the name is behaviourally
relevant (stages filter schemas by name); the JSON-schema payload is opaque
to the core and elided. -/
structure ToolSchema where
  name : String
deriving Repr

def TOOL_SCHEMAS : List ToolSchema :=
  [⟨"search_logs"⟩, ⟨"get_metrics"⟩, ⟨"get_recent_deployments"⟩,
   ⟨"get_service_dependencies"⟩, ⟨"search_runbooks"⟩]

/-- Result of one gateway `chat` call: a response, a raised exception, or a
call that outlives the orchestrator's deadline (surfacing as
`asyncio.TimeoutError` from `asyncio.wait_for`). -/
inductive GResp where
  | ok (r : Response)
  | raise (msg : String)
  | hang

/-- A gateway behaviour: what `chat` does on its n-th invocation, given the
conversation and the offered tool schemas.  Quantifying over this type
covers every behaviour of the external LLM gateway. -/
def Gateway : Type := Nat → List Message → Option (List ToolSchema) → GResp

/-! ## Tool backend and registry (src/tools/registry.py) -/

/-- The five backend operations (external collaborators per spec section 1;
their data is deterministic lookup tables).  Arguments arrive as the raw
JSON the model supplied; an absent `search_runbooks` engine models
`rag_engine=None`. -/
structure Backend where
  search_logs : Json → Option Json → Option Json → Option Json → Option Json →
    Except PyErr Json
  get_metrics : Json → Option Json → Option Json → Option Json → Except PyErr Json
  get_recent_deployments : Option Json → Json → Except PyErr Json
  get_service_dependencies : Json → Except PyErr Json
  search_runbooks : Option (Json → Except PyErr Json)

/-- Names present in the fixed `_handlers` registry. -/
def handlerNames : List String :=
  ["search_logs", "get_metrics", "get_recent_deployments",
   "get_service_dependencies", "search_runbooks"]

/-- The per-name handlers (`_handle_*` in src/tools/registry.py): required
arguments are read with subscripting (raising `KeyError` when absent),
optional ones with `.get`. -/
def runHandler (B : Backend) (name : String) (args : Json) : Except PyErr Json :=
  if name == "search_logs" then do
    let service ← pyGetItemE args "service"
    let sev ← pyGetE args "severity"
    let ts ← pyGetE args "time_start"
    let te ← pyGetE args "time_end"
    let q ← pyGetE args "query"
    B.search_logs service sev ts te q
  else if name == "get_metrics" then do
    let service ← pyGetItemE args "service"
    let mn ← pyGetE args "metric_name"
    let ts ← pyGetE args "time_start"
    let te ← pyGetE args "time_end"
    B.get_metrics service mn ts te
  else if name == "get_recent_deployments" then do
    let service ← pyGetE args "service"
    let lim ← pyGetD args "limit" (.num 5)
    B.get_recent_deployments service lim
  else if name == "get_service_dependencies" then do
    let service ← pyGetItemE args "service"
    B.get_service_dependencies service
  else if name == "search_runbooks" then
    match B.search_runbooks with
    | none => .ok (.obj [("error", .str "RAG engine not initialized")])
    | some engine => do
      let q ← pyGetD args "query" (.str "")
      engine q
  else .error (.exc ("KeyError: " ++ name))

/-- Embedding of `ToolRegistry.execute`: unknown names yield a `ToolCall`
whose result is a structured error; a found handler is run and its
exceptions propagate to the caller (there is no `try` around the handler
call in the source). -/
def executeTool (B : Backend) (name : String) (args : Json) :
    Except PyErr ToolCallRec :=
  if handlerNames.contains name then
    (runHandler B name args).map (fun result =>
      { tool_name := name, arguments := args, result := result,
        latency_ms := 0, cost_usd := 0 })
  else
    .ok { tool_name := name, arguments := args,
          result := .obj [("error", .str ("Unknown tool: " ++ name))],
          latency_ms := 0, cost_usd := 0 }

/-! ## Orchestrator state and monad -/

/-- Mutable state of one `IncidentAnalyzer` run: the gateway call counter,
the decision tracer (with its optional event sink), the streaming event
queue, the A2A message bus, and the `nonlocal` stage results of the
streaming pipeline. -/
structure OrchSt where
  gcalls : Nat
  tracerSink : Bool
  traces : List (String × List AgentStep)
  queue : List StreamEvent
  bus : List AgentMessage
  sT : Json
  sR : Json
  sM : Json

/-- State-and-exception monad of the embedding: Python side effects persist
even when an exception is thrown past them. -/
def M (α : Type) : Type := OrchSt → Except PyErr α × OrchSt

def M.pure (a : α) : M α := fun st => (.ok a, st)

def M.bind (x : M α) (f : α → M β) : M β := fun st =>
  match x st with
  | (.ok a, st1) => f a st1
  | (.error e, st1) => (.error e, st1)

instance : Monad M where
  pure := M.pure
  bind := M.bind

/-- Lift a pure `Except` computation (its exception propagates). -/
def liftE (x : Except PyErr α) : M α := fun st => (x, st)

/-- `try`/`except` at the whole-computation granularity: run `x`, observe
its outcome, never fail. -/
def M.attempt (x : M α) : M (Except PyErr α) := fun st =>
  match x st with
  | (r, st1) => (.ok r, st1)

def M.modify (f : OrchSt → OrchSt) : M Unit := fun st => (.ok (), f st)

def M.read (f : OrchSt → α) : M α := fun st => (.ok (f st), st)

/-- `gateway.chat(...)`: consult the gateway behaviour at the current call
index; a raising call propagates as an exception, a hanging call as the
fired deadline. -/
def gchat (g : Gateway) (msgs : List Message) (tools : Option (List ToolSchema)) :
    M Response := fun st =>
  match g st.gcalls msgs tools with
  | .ok r => (.ok r, { st with gcalls := st.gcalls + 1 })
  | .raise m => (.error (.exc m), { st with gcalls := st.gcalls + 1 })
  | .hang => (.error .timeoutFired, { st with gcalls := st.gcalls + 1 })

/-- Replace-or-append update of an association list (Python dict
assignment). -/
def assocSet (k : String) (v : α) : List (String × α) → List (String × α)
  | [] => [(k, v)]
  | (k0, v0) :: rest =>
    if k0 == k then (k, v) :: rest else (k0, v0) :: assocSet k v rest

/-! ## Decision tracer (src/monitoring/tracer.py) -/

def getTraceSt (st : OrchSt) (tid : String) : List AgentStep :=
  (st.traces.lookup tid).getD []

/-- `get_total_tokens`: sum of `tokens_used` over the trace. -/
def getTotalTokens (st : OrchSt) (tid : String) : Nat :=
  ((getTraceSt st tid).map AgentStep.tokens_used).sum

/-- `get_total_cost`: sum of `cost_usd` over the trace. -/
def getTotalCost (st : OrchSt) (tid : String) : ℚ :=
  ((getTraceSt st tid).map AgentStep.cost_usd).sum

/-- The `tool_call` stream event the sink-aware tracer emits per contained
tool call. -/
def mkToolCallEvent (stage : String) (tc : ToolCallRec) : StreamEvent :=
  ⟨"tool_call", some stage, .kv [("action", .str tc.tool_name)]⟩

/-- `DecisionTracer.start_trace`. -/
def startTraceM (tid : String) : M Unit :=
  M.modify (fun st => { st with traces := assocSet tid [] st.traces })

/-- `DecisionTracer.log_step`: build the step, append it (initialising the
trace when the id is unknown), and — modelled from the spec: the sink-aware
variant is absent from src/monitoring/tracer.py though core.py and the
tests construct `DecisionTracer(event_queue=...)` — when an event sink was
configured, emit one `tool_call` StreamEvent per contained ToolCall
carrying the call's tool name and the stage name. -/
def logStep (tid agent action reasoning : String) (toolCalls : List ToolCallRec)
    (tokens : Nat) (cost : ℚ) : M AgentStep := fun st =>
  let step : AgentStep :=
    ⟨agent, action, reasoning, toolCalls, tokens, cost⟩
  let traces1 :=
    match st.traces.lookup tid with
    | some steps => assocSet tid (steps ++ [step]) st.traces
    | none => assocSet tid [step] st.traces
  let evs := if st.tracerSink then toolCalls.map (mkToolCallEvent agent) else []
  (.ok step, { st with traces := traces1, queue := st.queue ++ evs })

/-! ## Message bus (src/protocols/a2a.py) -/

/-- `MessageBus.send`: construct, append, return. -/
def busSend (fromA toA : String) (mtype : MsgType) (content : Json) (tid : String) :
    M AgentMessage := fun st =>
  let msg : AgentMessage := ⟨fromA, toA, mtype, content, tid⟩
  (.ok msg, { st with bus := st.bus ++ [msg] })

/-- `MessageBus.get_messages`. -/
def busMessagesFor (st : OrchSt) (tid : String) : List AgentMessage :=
  st.bus.filter (fun m => m.trace_id == tid)

/-- Push one event onto the streaming queue (`event_queue.put_nowait`). -/
def emitQ (ev : StreamEvent) : M Unit := fun st =>
  (.ok (), { st with queue := st.queue ++ [ev] })

/-! ## Stage agents (src/agent/agents/triage.py, research.py, remediation.py)

The three system prompts are long instruction prose opaque to all control
flow; they are embedded as marker strings. -/

def TRIAGE_SYSTEM_PROMPT : String := "TRIAGE_SYSTEM_PROMPT"

def RESEARCH_SYSTEM_PROMPT : String := "RESEARCH_SYSTEM_PROMPT"

def REMEDIATION_SYSTEM_PROMPT : String := "REMEDIATION_SYSTEM_PROMPT"

def sysMsg (p : String) : Message := ⟨"system", [.text p]⟩

/-- The assistant turn echoing a tool-requesting response (text block when
the content is non-empty, then one `tool_use` block per request). -/
def assistantMsg (resp : Response) : Message :=
  ⟨"assistant",
    (if resp.content == "" then [] else [.text resp.content])
      ++ resp.tool_calls.map (fun tc => .tool_use tc.id tc.name tc.input)⟩

/-- Placeholder for the loop variable before the first iteration; with a
positive iteration budget it is never returned (Python would raise
`NameError` if a loop ran zero times, which never happens here). -/
def dummyResp : Response := ⟨"", [], ⟨0, 0⟩⟩

/-- Execute the tool calls requested in one response, in order, collecting
the `ToolCall` records and the `tool_result` blocks (triage/remediation
variant: no per-call trace step). -/
def procToolCalls (B : Backend) : List LLMToolUse → M (List ToolCallRec × List Block)
  | [] => M.pure ([], [])
  | tc :: rest => do
    let tcRec ← liftE (executeTool B tc.name tc.input)
    let (recs, blocks) ← procToolCalls B rest
    pure (tcRec :: recs, .tool_result tc.id (Json.dumps tcRec.result) :: blocks)

def TRIAGE_TOOL_NAMES : List String := ["get_metrics", "get_service_dependencies"]

/-- The initial triage user turn (an f-string over the alert fields). -/
def triagePrompt (alert : Alert) : String :=
  "ALERT RECEIVED:\n" ++ "Service: " ++ alert.service ++ "\n"
    ++ "Severity: " ++ alert.severity.show ++ "\n"
    ++ "Description: " ++ alert.description ++ "\n"
    ++ "Timestamp: " ++ alert.timestamp ++ "\n"
    ++ "Metadata: " ++ Json.dumps alert.metadata ++ "\n\n"
    ++ "Perform initial triage. Check metrics and dependencies for "
    ++ alert.service
    ++ ", then provide your classification and delegation instructions."

/-- Fallback triage result when `extract_json` yields nothing. -/
def defaultTriage (alert : Alert) (content : String) : Json :=
  .obj [("classification", .str "unknown"),
        ("affected_services", .arr [.str alert.service]),
        ("priority", .str "P1"),
        ("summary", .str content),
        ("delegation_instructions",
          .str ("Investigate " ++ alert.service ++ " for " ++ alert.description))]

/-- The `for _ in range(max_iterations)` loop of `TriageAgent.run`: chat,
stop on a tool-free response, otherwise execute the requested tools, extend
the conversation and continue; on exhaustion the last response is kept. -/
def triageLoop (B : Backend) (g : Gateway) (schemas : List ToolSchema) :
    Nat → List Message → TokenUsage → List ToolCallRec → Response →
    M (Response × TokenUsage × List ToolCallRec)
  | 0, _msgs, u, cs, last => M.pure (last, u, cs)
  | fuel + 1, msgs, u, cs, _last => do
    let resp ← gchat g (sysMsg TRIAGE_SYSTEM_PROMPT :: msgs) (some schemas)
    let u1 := addUsage u resp.usage
    if resp.tool_calls.isEmpty then pure (resp, u1, cs)
    else do
      let (recs, blocks) ← procToolCalls B resp.tool_calls
      let msgs1 := msgs ++ [assistantMsg resp, ⟨"user", blocks⟩]
      triageLoop B g schemas fuel msgs1 u1 (cs ++ recs) resp

/-- `TriageAgent.run`. -/
def triageRun (B : Backend) (g : Gateway) (alert : Alert) (tid : String) : M Json := do
  let schemas := TOOL_SCHEMAS.filter (fun s => TRIAGE_TOOL_NAMES.contains s.name)
  let msgs0 : List Message := [⟨"user", [.text (triagePrompt alert)]⟩]
  let (resp, usage, calls) ← triageLoop B g schemas 4 msgs0 ⟨0, 0⟩ [] dummyResp
  let cost : ℚ :=
    ((usage.input_tokens : ℚ) * 3 + (usage.output_tokens : ℚ) * 15) / 1000000
  let _ ← logStep tid "triage" "triage_classification" resp.content calls
    usage.total cost
  let parsed ← liftE (extract_jsonE resp.content)
  match parsed with
  | some v => pure v
  | none => pure (defaultTriage alert resp.content)

/-- The initial research user turn, built from the triage result with
`.get` lookups and `", ".join` (each of which can raise on an ill-shaped
triage result, exactly as in the source). -/
def researchPrompt (tri : Json) : Except PyErr String := do
  let classification ← pyGetD tri "classification" (.str "unknown")
  let priority ← pyGetD tri "priority" (.str "P1")
  let affected ← pyGetD tri "affected_services" (.arr [])
  let affectedStr ← joinE ", " affected
  let summary ← pyGetD tri "summary" (.str "")
  let deleg ← pyGetD tri "delegation_instructions"
    (.str "Investigate the incident thoroughly.")
  pure ("INVESTIGATION REQUEST FROM TRIAGE AGENT:\n\n"
    ++ "Classification: " ++ pyStr classification
    ++ "\nPriority: " ++ pyStr priority
    ++ "\nAffected Services: " ++ affectedStr
    ++ "\nTriage Summary: " ++ pyStr summary
    ++ "\n\nDELEGATION INSTRUCTIONS:\n" ++ pyStr deleg
    ++ "\n\nUse your tools systematically to investigate. Check logs, metrics, "
    ++ "deployments, and runbooks. Build a complete picture of what happened.")

def MAX_TOOL_CALLS : Nat := 8

/-- Per-tool-call processing of the research loop: execute, bump the tool
call counter and log one `tool_call:<name>` trace step per call. -/
def researchProcTools (B : Backend) (tid : String) :
    List LLMToolUse → Nat → M (Nat × List Block)
  | [], count => M.pure (count, [])
  | tc :: rest, count => do
    let tcRec ← liftE (executeTool B tc.name tc.input)
    let count1 := count + 1
    let _ ← logStep tid "research" ("tool_call:" ++ tc.name)
      ("Called " ++ tc.name ++ " with " ++ Json.dumps tc.input) [tcRec] 0 0
    let (c2, blocks) ← researchProcTools B tid rest count1
    pure (c2, .tool_result tc.id (Json.dumps tcRec.result) :: blocks)

def finalAnswerTurn : String :=
  "You have reached the maximum number of tool calls. "
    ++ "Based on all the data you have gathered, provide your final analysis now."

/-- The `while tool_call_count < MAX_TOOL_CALLS` loop of
`ResearchAgent.run`.  The cap counts tool calls, not iterations; reaching
it appends the synthetic final user turn and forces one more chat with
tools disabled.  The fuel equals `MAX_TOOL_CALLS`; every iteration raises
the count by at least one, so fuel never runs out. -/
def researchLoop (B : Backend) (g : Gateway) (tid : String) :
    Nat → Nat → List Message → TokenUsage → Response → M (Response × TokenUsage)
  | 0, _count, _msgs, u, last => M.pure (last, u)
  | fuel + 1, count, msgs, u, last =>
    if MAX_TOOL_CALLS ≤ count then M.pure (last, u)
    else do
      let resp ← gchat g (sysMsg RESEARCH_SYSTEM_PROMPT :: msgs) (some TOOL_SCHEMAS)
      let u1 := addUsage u resp.usage
      if resp.tool_calls.isEmpty then pure (resp, u1)
      else do
        let (count1, blocks) ← researchProcTools B tid resp.tool_calls count
        let msgs1 := msgs ++ [assistantMsg resp, ⟨"user", blocks⟩]
        if MAX_TOOL_CALLS ≤ count1 then do
          let msgs2 := msgs1 ++ [⟨"user", [.text finalAnswerTurn]⟩]
          let resp2 ← gchat g (sysMsg RESEARCH_SYSTEM_PROMPT :: msgs2) none
          let u2 := addUsage u1 resp2.usage
          pure (resp2, u2)
        else researchLoop B g tid fuel count1 msgs1 u1 resp

/-- Result extraction of `ResearchAgent.run` (lines 144-161): direct
`json.loads`, then — inside the `except` block and **without** a second
`try` — `json.loads` of the first-brace-to-last-brace substring, and the
minimal default only when no such substring exists. -/
def researchParseResult (content : String) (tri : Json) : Except PyErr Json :=
  match jsonLoadsExc content with
  | .ok v => .ok v
  | .error _ =>
    match braceSlice content.data with
    | some sub => jsonLoadsExc (String.mk sub)
    | none => do
      let affected ← pyGetD tri "affected_services" (.arr [])
      .ok (.obj [("timeline", .arr []),
                 ("root_cause", .str content),
                 ("confidence", .num (1 / 2)),
                 ("evidence", .arr []),
                 ("relevant_runbooks", .arr []),
                 ("affected_services", affected)])

/-- `ResearchAgent.run` (the write-only `all_tool_calls` accumulator of the
source is elided: research logs its final step with an empty call list). -/
def researchRun (B : Backend) (g : Gateway) (tri : Json) (tid : String) : M Json := do
  let prompt ← liftE (researchPrompt tri)
  let msgs0 : List Message := [⟨"user", [.text prompt]⟩]
  let (resp, usage) ← researchLoop B g tid MAX_TOOL_CALLS 0 msgs0 ⟨0, 0⟩ dummyResp
  let cost : ℚ :=
    ((usage.input_tokens : ℚ) * 3 + (usage.output_tokens : ℚ) * 15) / 1000000
  let _ ← logStep tid "research" "research_findings" resp.content [] usage.total cost
  liftE (researchParseResult resp.content tri)

/-- The initial remediation user turn built from the research findings. -/
def remediationPrompt (res : Json) : Except PyErr String := do
  let rc ← pyGetD res "root_cause" (.str "Unknown")
  let conf ← pyGetD res "confidence" (.num 0)
  let evidence ← pyGetD res "evidence" (.arr [])
  let evItems ← iterE evidence
  let evLines := String.intercalate "\n" (evItems.map (fun e => "- " ++ pyStr e))
  let timeline ← pyGetD res "timeline" (.arr [])
  let tlItems ← iterE timeline
  let tlLines ← tlItems.mapM (fun t => do
    let ts ← pyGetD t "timestamp" (.str "?")
    let ev ← pyGetD t "event" (.str "?")
    Except.ok ("- " ++ pyStr ts ++ ": " ++ pyStr ev))
  let runbooks ← pyGetD res "relevant_runbooks" (.arr [])
  let rbStr ← joinE ", " runbooks
  let affected ← pyGetD res "affected_services" (.arr [])
  let affStr ← joinE ", " affected
  pure ("RESEARCH FINDINGS:\n\n"
    ++ "Root Cause: " ++ pyStr rc
    ++ "\nConfidence: " ++ pyStr conf
    ++ "\n\nEvidence:\n" ++ evLines
    ++ "\n\nTimeline:\n" ++ String.intercalate "\n" tlLines
    ++ "\n\nRelevant Runbooks: " ++ rbStr
    ++ "\nAffected Services: " ++ affStr
    ++ "\n\nBased on these findings, propose specific remediation steps. "
    ++ "You may search runbooks for additional procedures if needed.")

/-- The `for _ in range(max_iterations)` loop of `RemediationAgent.run`
(same shape as triage with its own prompt and tool offer). -/
def remediationLoop (B : Backend) (g : Gateway) (tools : Option (List ToolSchema)) :
    Nat → List Message → TokenUsage → List ToolCallRec → Response →
    M (Response × TokenUsage × List ToolCallRec)
  | 0, _msgs, u, cs, last => M.pure (last, u, cs)
  | fuel + 1, msgs, u, cs, _last => do
    let resp ← gchat g (sysMsg REMEDIATION_SYSTEM_PROMPT :: msgs) tools
    let u1 := addUsage u resp.usage
    if resp.tool_calls.isEmpty then pure (resp, u1, cs)
    else do
      let (recs, blocks) ← procToolCalls B resp.tool_calls
      let msgs1 := msgs ++ [assistantMsg resp, ⟨"user", blocks⟩]
      remediationLoop B g tools fuel msgs1 u1 (cs ++ recs) resp

/-- Result extraction of `RemediationAgent.run` (lines 125-147), identical
in shape to the research extraction: the substring re-parse is not guarded
by a `try`. -/
def remediationParseResult (content : String) : Except PyErr Json :=
  match jsonLoadsExc content with
  | .ok v => .ok v
  | .error _ =>
    match braceSlice content.data with
    | some sub => jsonLoadsExc (String.mk sub)
    | none =>
      .ok (.obj [("remediation_steps", .arr
                   [.obj [("step", .num 1),
                          ("action", .str "Manual investigation required"),
                          ("risk", .str "medium"),
                          ("requires_approval", .bool true),
                          ("rationale", .str content)]]),
                 ("requires_human_approval", .bool true),
                 ("summary", .str content)])

def strContainsSub (hay needle : List Char) : Bool :=
  hay.tails.any (fun t => needle.isPrefixOf t)

/-- `if "requires_human_approval" not in result: result[...] = True` with
Python membership/assignment semantics on each value shape (`in` on a
list compares elements, on a string searches substrings; item assignment
on non-dicts raises `TypeError`). -/
def ensureApproval (v : Json) : Except PyErr Json :=
  match v with
  | .obj kvs =>
    if (kvs.lookup "requires_human_approval").isSome then .ok (.obj kvs)
    else .ok (.obj (kvs ++ [("requires_human_approval", .bool true)]))
  | .arr xs =>
    if xs.any (fun x =>
        match x with
        | .str s => s == "requires_human_approval"
        | _ => false)
      then .ok (.arr xs)
      else .error (.exc "TypeError: list item assignment")
  | .str s =>
    if strContainsSub s.data "requires_human_approval".data then .ok (.str s)
    else .error (.exc "TypeError: str item assignment")
  | v0 => .error (.exc ("TypeError: membership on " ++ pyStr v0))

/-- `RemediationAgent.run`. -/
def remediationRun (B : Backend) (g : Gateway) (res : Json) (tid : String) :
    M Json := do
  let runbook_schemas := TOOL_SCHEMAS.filter (fun s => s.name == "search_runbooks")
  let tools := if runbook_schemas.isEmpty then none else some runbook_schemas
  let prompt ← liftE (remediationPrompt res)
  let msgs0 : List Message := [⟨"user", [.text prompt]⟩]
  let (resp, usage, calls) ← remediationLoop B g tools 3 msgs0 ⟨0, 0⟩ [] dummyResp
  let cost : ℚ :=
    ((usage.input_tokens : ℚ) * 3 + (usage.output_tokens : ℚ) * 15) / 1000000
  let _ ← logStep tid "remediation" "remediation_proposal" resp.content calls
    usage.total cost
  let parsed ← liftE (remediationParseResult resp.content)
  liftE (ensureApproval parsed)

/-! ## Orchestrator (src/agent/core.py) -/

/-- `IncidentAnalyzer._run_pipeline`: the three stages in sequence with the
A2A handoffs; the terminal message escalates exactly when
`remediation_result.get("requires_human_approval")` is truthy. -/
def runPipeline (B : Backend) (g : Gateway) (alert : Alert) (tid : String) :
    M (Json × Json × Json) := do
  let t ← triageRun B g alert tid
  let _ ← busSend "triage" "research" .delegate t tid
  let r ← researchRun B g t tid
  let _ ← busSend "research" "remediation" .delegate r tid
  let m ← remediationRun B g r tid
  let approval ← liftE (pyGetE m "requires_human_approval")
  let _ ← busSend "remediation" "orchestrator"
    (if pyTruthyOpt approval then .escalate else .respond) m tid
  pure (t, r, m)

/-- `min(1.0, max(0.0, research_result.get("confidence", 0.0)))`: numbers
clamp; Python booleans order-compare as 0/1; anything else raises
`TypeError`. -/
def clampConfidenceE : Option Json → Except PyErr ℚ
  | none => .ok 0
  | some (.num q) => .ok (min 1 (max 0 q))
  | some (.bool b) => .ok (min 1 (max 0 (if b then (1 : ℚ) else 0)))
  | some _ => .error (.exc "TypeError: comparison of str and float")

/-- Pydantic validation of a `str` field (lax mode does not coerce
non-strings). -/
def strFieldE (v : Json) : Except PyErr String :=
  match v with
  | .str s => .ok s
  | _ => .error (.exc "ValidationError: str expected")

/-- `[step.get("action", str(step)) for step in rem.get("remediation_steps", [])]`
followed by pydantic validation of `list[str]`. -/
def remediationStepsE (rem : Json) : Except PyErr (List String) := do
  let raw ← pyGetD rem "remediation_steps" (.arr [])
  let items ← iterE raw
  items.mapM (fun step => do
    let a ← pyGetD step "action" (.str (pyStr step))
    strFieldE a)

/-- Pydantic validation of the `requires_human_approval` bool field:
missing means the `.get` default `True`; bools pass; the ints 0/1 coerce
in lax mode (the handful of string literals pydantic also accepts are not
exercised by any claim and are treated as validation errors). -/
def requiresApprovalE : Option Json → Except PyErr Bool
  | none => .ok true
  | some (.bool b) => .ok b
  | some (.num q) =>
    if q = 0 then .ok false
    else if q = 1 then .ok true
    else .error (.exc "ValidationError: bool expected")
  | some _ => .error (.exc "ValidationError: bool expected")

/-- `IncidentAnalyzer._build_report` on given stage results and tracer
state.  Field extraction and pydantic validation are interleaved per field
(the source evaluates all `.get`s first and validates afterwards; only
whether an exception occurs is observable, not which).  `round(duration,2)`
and the FinOps/Prometheus recording side effects are elided: no claim
observes them. -/
def buildReportE (iid : String) (alert : Alert) (tid : String) (dur : ℚ)
    (tri res rem : Json) (st : OrchSt) : Except PyErr IncidentReport := do
  let steps ← remediationStepsE rem
  let summaryV ← pyGetD tri "summary" (.str "Analysis incomplete")
  let summary ← strFieldE summaryV
  let rootV ← pyGetD res "root_cause" (.str "Could not determine root cause")
  let root_cause ← strFieldE rootV
  let confO ← pyGetE res "confidence"
  let conf ← clampConfidenceE confO
  let apprO ← pyGetE rem "requires_human_approval"
  let appr ← requiresApprovalE apprO
  .ok { incident_id := iid, alert := alert, summary := summary,
        root_cause := root_cause, confidence_score := conf,
        remediation_steps := steps, agent_trace := getTraceSt st tid,
        total_tokens := getTotalTokens st tid,
        total_cost_usd := getTotalCost st tid,
        duration_seconds := dur, requires_human_approval := appr }

def buildReport (iid : String) (alert : Alert) (tid : String) (dur : ℚ)
    (tri res rem : Json) : M IncidentReport := fun st =>
  (buildReportE iid alert tid dur tri res rem st, st)

/-- `IncidentAnalyzer.analyze`: start the trace, run the pipeline under the
deadline, convert a timeout into a `"timeout"` step and any other exception
into an `"error"` step — in both cases all three stage results are the
empty dicts the local variables were initialised to — then assemble the
report (note: report assembly is *outside* the `try`). -/
def analyze (B : Backend) (g : Gateway) (iid tid : String) (alert : Alert)
    (dur : ℚ) : M IncidentReport := do
  startTraceM tid
  let out ← M.attempt (runPipeline B g alert tid)
  let results ←
    match out with
    | .ok r => M.pure r
    | .error .timeoutFired => do
      let _ ← logStep tid "orchestrator" "timeout"
        "Analysis exceeded 120s timeout" [] 0 0
      pure (Json.obj [], Json.obj [], Json.obj [])
    | .error (.exc m) => do
      let _ ← logStep tid "orchestrator" "error" ("Analysis failed: " ++ m) [] 0 0
      pure (Json.obj [], Json.obj [], Json.obj [])
  buildReport iid alert tid dur results.1 results.2.1 results.2.2

def pyErrMsg : PyErr → String
  | .exc m => m
  | .timeoutFired => "TimeoutError"

def isDoneEv (ev : StreamEvent) : Bool :=
  match ev.data with
  | .doneSentinel => true
  | _ => false

/-- The `_streaming_pipeline` background task of `analyze_stream`: lifecycle
events around each stage, stage results written to the `nonlocal` slots as
they complete, the terminal A2A message, an `error` event on any exception,
and the completion sentinel in the `finally`. -/
def streamBody (B : Backend) (g : Gateway) (alert : Alert) (tid : String) :
    M Unit := do
  emitQ ⟨"agent_start", some "triage", .emptyD⟩
  let t ← triageRun B g alert tid
  M.modify (fun st => { st with sT := t })
  let tok1 ← M.read (fun st => getTotalTokens st tid)
  emitQ ⟨"agent_complete", some "triage", .kv [("tokens_used", .num tok1)]⟩
  let _ ← busSend "triage" "research" .delegate t tid
  emitQ ⟨"agent_start", some "research", .emptyD⟩
  let r ← researchRun B g t tid
  M.modify (fun st => { st with sR := r })
  let tok2 ← M.read (fun st => getTotalTokens st tid)
  emitQ ⟨"agent_complete", some "research", .kv [("tokens_used", .num tok2)]⟩
  let _ ← busSend "research" "remediation" .delegate r tid
  emitQ ⟨"agent_start", some "remediation", .emptyD⟩
  let m ← remediationRun B g r tid
  M.modify (fun st => { st with sM := m })
  let tok3 ← M.read (fun st => getTotalTokens st tid)
  emitQ ⟨"agent_complete", some "remediation", .kv [("tokens_used", .num tok3)]⟩
  let approval ← liftE (pyGetE m "requires_human_approval")
  let _ ← busSend "remediation" "orchestrator"
    (if pyTruthyOpt approval then .escalate else .respond) m tid
  pure ()

/-- The state reset at the head of `analyze_stream`: a fresh tracer wired to
the event queue, `start_trace`, and the `nonlocal` result slots initialised
to empty dicts. -/
def streamInitSt (tid : String) (st : OrchSt) : OrchSt :=
  { st with tracerSink := true, traces := assocSet tid [] st.traces,
            queue := [], sT := .obj [], sR := .obj [], sM := .obj [] }

/-- `IncidentAnalyzer.analyze_stream`, returning the sequence of events the
caller receives: a fresh sink-connected tracer and empty queue/result slots
for the run, the background pipeline (whose exception becomes an `error`
event and, after the drain, an `"error"` trace step), the queue drained up
to the sentinel, report assembly against the streaming tracer, and the
final `analysis_complete` event carrying the report.  The asyncio
interleaving of producer and consumer preserves queue order, so the drained
prefix equals the emission order. -/
def analyzeStream (B : Backend) (g : Gateway) (iid tid : String) (alert : Alert)
    (dur : ℚ) : M (List StreamEvent) := do
  M.modify (streamInitSt tid)
  let out ← M.attempt (streamBody B g alert tid)
  match out with
  | .error e => emitQ ⟨"error", none, .kv [("message", .str (pyErrMsg e))]⟩
  | .ok _ => pure ()
  emitQ ⟨"error", none, .doneSentinel⟩
  let yielded ← M.read (fun st => st.queue.filter (fun ev => !isDoneEv ev))
  match out with
  | .error e => do
    let _ ← logStep tid "orchestrator" "error"
      ("Analysis failed: " ++ pyErrMsg e) [] 0 0
    pure ()
  | .ok _ => pure ()
  let sT ← M.read OrchSt.sT
  let sR ← M.read OrchSt.sR
  let sM ← M.read OrchSt.sM
  let rep ← buildReport iid alert tid dur sT sR sM
  pure (yielded ++ [⟨"analysis_complete", none, .reportPayload rep⟩])

/-! ## Property vocabulary and concrete witness inputs -/

/-- Well-formedness of an assembled report: the pydantic bound on the
confidence score and the Trace-is-truth invariant that the aggregate
token/cost totals are the sums over the attached trace. -/
def wellFormedReport (r : IncidentReport) : Prop :=
  0 ≤ r.confidence_score ∧ r.confidence_score ≤ 1
    ∧ r.total_tokens = (r.agent_trace.map AgentStep.tokens_used).sum
    ∧ r.total_cost_usd = (r.agent_trace.map AgentStep.cost_usd).sum

/-- What a stage run does to the shared state outside the tracer: the
message bus and the sink flag are untouched and the event queue only grows
by `tool_call` events mirrored from logged steps. -/
def StageEffect (st st1 : OrchSt) : Prop :=
  st1.bus = st.bus ∧ st1.tracerSink = st.tracerSink
    ∧ ∃ d, st1.queue = st.queue ++ d
        ∧ ∀ e ∈ d, ∃ sg tc, e = mkToolCallEvent sg tc

/-- The truthiness test the orchestrator applies to
`remediation_result.get("requires_human_approval")`. -/
def terminalApproval (m : Json) : Option Json :=
  ((pyGetE m "requires_human_approval").toOption).getD none

/-- The kind of the terminal A2A message. -/
def terminalKind (m : Json) : MsgType :=
  if pyTruthyOpt (terminalApproval m) then .escalate else .respond

/-- The event sequence a caller of `analyze_stream` receives (empty when the
generator itself raised). -/
def streamYields (B : Backend) (g : Gateway) (iid tid : String) (alert : Alert)
    (dur : ℚ) (st : OrchSt) : List StreamEvent :=
  (((analyzeStream B g iid tid alert dur) st).1.toOption).getD []

/-- A fresh orchestrator state. -/
def initSt : OrchSt := ⟨0, false, [], [], [], .obj [], .obj [], .obj []⟩

/-- A trivial deterministic tool backend (its data never matters to the
claims; `search_runbooks` is configured absent, as when no RAG engine is
passed). -/
def stubBackend : Backend :=
  ⟨fun _ _ _ _ _ => .ok .null, fun _ _ _ _ => .ok .null,
   fun _ _ => .ok .null, fun _ => .ok .null, none⟩

def mkResp (c : String) : Response := ⟨c, [], ⟨100, 50⟩⟩

def sampleAlert : Alert :=
  ⟨"payment-api", "P99 latency spike", .critical, "2024-01-15T14:30:00Z", .obj []⟩

/-- A gateway scripting one well-formed tool-free answer per stage. -/
def gwOk : Gateway := fun i _ _ =>
  if i == 0 then .ok (mkResp "\x7b\"summary\": \"s\"\x7d")
  else if i == 1 then
    .ok (mkResp "\x7b\"confidence\": 0.92, \"root_cause\": \"rc\"\x7d")
  else .ok (mkResp "\x7b\"requires_human_approval\": true\x7d")

/-- A gateway that raises on every call. -/
def gwRaise : Gateway := fun _ _ _ => .raise "boom"

/-- A gateway whose research answer parses to a JSON object with a
*string* confidence. -/
def gwBadConf : Gateway := fun i _ _ =>
  if i == 0 then .ok (mkResp "\x7b\"summary\": \"s\"\x7d")
  else if i == 1 then .ok (mkResp "\x7b\"confidence\": \"high\"\x7d")
  else .ok (mkResp "\x7b\"requires_human_approval\": true\x7d")

/-- A response requesting exactly one (unregistered, hence harmless) tool. -/
def respOneTool : Response := ⟨"Let me check.", [⟨"id1", "probe", .obj []⟩], ⟨10, 10⟩⟩

/-- A gateway that requests one tool call on every invocation. -/
def gwOneTool : Gateway := fun _ _ _ => .ok respOneTool

/-- Gateways that answer every chat with at least one requested tool call
whose execution does not raise. -/
def AlwaysToolCalls (B : Backend) (g : Gateway) : Prop :=
  ∀ i msgs tools,
    match g i msgs tools with
    | .ok r => r.tool_calls ≠ []
        ∧ ∀ tc ∈ r.tool_calls, (executeTool B tc.name tc.input).isOk = true
    | _ => False

/-- Gateways that answer every chat with exactly one requested tool call
whose execution does not raise. -/
def OneToolPerCall (B : Backend) (g : Gateway) : Prop :=
  ∀ i msgs tools,
    match g i msgs tools with
    | .ok r => r.tool_calls.length = 1
        ∧ ∀ tc ∈ r.tool_calls, (executeTool B tc.name tc.input).isOk = true
    | _ => False

/-- The step record a `log_step` call constructs. -/
def logStepStep (agent action reasoning : String) (tcs : List ToolCallRec)
    (tok : Nat) (cost : ℚ) : AgentStep :=
  ⟨agent, action, reasoning, tcs, tok, cost⟩

/-- The state after a `log_step` call. -/
def logStepSt (tid agent action reasoning : String) (tcs : List ToolCallRec)
    (tok : Nat) (cost : ℚ) (st : OrchSt) : OrchSt :=
  { st with
      traces :=
        match st.traces.lookup tid with
        | some steps =>
          assocSet tid (steps ++ [logStepStep agent action reasoning tcs tok cost])
            st.traces
        | none =>
          assocSet tid [logStepStep agent action reasoning tcs tok cost] st.traces,
      queue := st.queue
        ++ (if st.tracerSink then tcs.map (mkToolCallEvent agent) else []) }

/-- Streaming witness data: the triage result parsed from `gwOk`. -/
def wT : Json := .obj [("summary", .str "s")]

/-- Streaming witness data: the research result parsed from `gwOk`. -/
def wR : Json :=
  .obj [("confidence",
         .num (((0 : ℕ) : ℚ) + ((92 : ℕ) : ℚ) / ((10 : ℚ) ^ (2 : ℕ)))),
        ("root_cause", .str "rc")]

/-- Streaming witness data: the remediation result parsed from `gwOk`. -/
def wM : Json := .obj [("requires_human_approval", .bool true)]

def wStep1 : AgentStep :=
  ⟨"triage", "triage_classification", "\x7b\"summary\": \"s\"\x7d", [], 150,
   (((100 : ℕ) : ℚ) * 3 + ((50 : ℕ) : ℚ) * 15) / 1000000⟩

def wStep2 : AgentStep :=
  ⟨"research", "research_findings",
   "\x7b\"confidence\": 0.92, \"root_cause\": \"rc\"\x7d", [], 150,
   (((100 : ℕ) : ℚ) * 3 + ((50 : ℕ) : ℚ) * 15) / 1000000⟩

def wStep3 : AgentStep :=
  ⟨"remediation", "remediation_proposal",
   "\x7b\"requires_human_approval\": true\x7d", [], 150,
   (((100 : ℕ) : ℚ) * 3 + ((50 : ℕ) : ℚ) * 15) / 1000000⟩

/-- The state after the triage stage of the `gwOk` streaming run. -/
def wSt1 : OrchSt :=
  ⟨1, true, [("trace-1", [wStep1])],
   [⟨"agent_start", some "triage", .emptyD⟩], [], .obj [], .obj [], .obj []⟩

/-- The state after the research stage of the `gwOk` streaming run. -/
def wSt2 : OrchSt :=
  ⟨2, true, [("trace-1", [wStep1, wStep2])],
   [⟨"agent_start", some "triage", .emptyD⟩,
    ⟨"agent_complete", some "triage",
      .kv [("tokens_used", .num ((150 : ℕ) : ℚ))]⟩,
    ⟨"agent_start", some "research", .emptyD⟩],
   [⟨"triage", "research", .delegate, wT, "trace-1"⟩],
   wT, .obj [], .obj []⟩

/-- The state after the remediation stage of the `gwOk` streaming run. -/
def wSt3 : OrchSt :=
  ⟨3, true, [("trace-1", [wStep1, wStep2, wStep3])],
   [⟨"agent_start", some "triage", .emptyD⟩,
    ⟨"agent_complete", some "triage",
      .kv [("tokens_used", .num ((150 : ℕ) : ℚ))]⟩,
    ⟨"agent_start", some "research", .emptyD⟩,
    ⟨"agent_complete", some "research",
      .kv [("tokens_used", .num ((300 : ℕ) : ℚ))]⟩,
    ⟨"agent_start", some "remediation", .emptyD⟩],
   [⟨"triage", "research", .delegate, wT, "trace-1"⟩,
    ⟨"research", "remediation", .delegate, wR, "trace-1"⟩],
   wT, wR, .obj []⟩

/-- The final state of the `gwOk` streaming pipeline body. -/
def wF : OrchSt :=
  ⟨3, true, [("trace-1", [wStep1, wStep2, wStep3])],
   [⟨"agent_start", some "triage", .emptyD⟩,
    ⟨"agent_complete", some "triage",
      .kv [("tokens_used", .num ((150 : ℕ) : ℚ))]⟩,
    ⟨"agent_start", some "research", .emptyD⟩,
    ⟨"agent_complete", some "research",
      .kv [("tokens_used", .num ((300 : ℕ) : ℚ))]⟩,
    ⟨"agent_start", some "remediation", .emptyD⟩,
    ⟨"agent_complete", some "remediation",
      .kv [("tokens_used", .num ((450 : ℕ) : ℚ))]⟩],
   [⟨"triage", "research", .delegate, wT, "trace-1"⟩,
    ⟨"research", "remediation", .delegate, wR, "trace-1"⟩,
    ⟨"remediation", "orchestrator", .escalate, wM, "trace-1"⟩],
   wT, wR, wM⟩

/-! ## Basic lemmas about the monad and the state primitives -/

theorem logStep_apply (tid agent action reasoning : String)
    (tcs : List ToolCallRec) (tok : Nat) (cost : ℚ) (st : OrchSt) :
    (logStep tid agent action reasoning tcs tok cost) st
      = (.ok (logStepStep agent action reasoning tcs tok cost),
         logStepSt tid agent action reasoning tcs tok cost st) := rfl

theorem bind_def {α β : Type} (x : M α) (f : α → M β) : x >>= f = M.bind x f := rfl

theorem pure_def {α : Type} (a : α) : (Pure.pure a : M α) = M.pure a := rfl

theorem lookup_assocSet {α : Type} (k : String) (v : α) (m : List (String × α)) :
    (assocSet k v m).lookup k = some v := by
  induction m with
  | nil => simp [assocSet, List.lookup]
  | cons kv rest ih =>
    obtain ⟨k0, v0⟩ := kv
    by_cases hk : k0 = k
    · simp [assocSet, hk, List.lookup]
    · have hne : (k == k0) = false := by
        simp only [beq_eq_false_iff_ne, ne_eq]
        exact fun h => hk h.symm
      simp [assocSet, List.lookup, hk, hne, ih]

theorem logStepSt_gcalls (tid agent action reasoning : String)
    (tcs : List ToolCallRec) (tok : Nat) (cost : ℚ) (st : OrchSt) :
    (logStepSt tid agent action reasoning tcs tok cost st).gcalls = st.gcalls := rfl

theorem logStepSt_queue (tid agent action reasoning : String)
    (tcs : List ToolCallRec) (tok : Nat) (cost : ℚ) (st : OrchSt) :
    (logStepSt tid agent action reasoning tcs tok cost st).queue
      = st.queue
        ++ (if st.tracerSink then tcs.map (mkToolCallEvent agent) else []) := rfl

theorem logStep_getTrace (tid agent action reasoning : String)
    (tcs : List ToolCallRec) (tok : Nat) (cost : ℚ) (st : OrchSt) :
    getTraceSt (logStepSt tid agent action reasoning tcs tok cost st) tid
      = getTraceSt st tid ++ [logStepStep agent action reasoning tcs tok cost] := by
  unfold getTraceSt logStepSt
  cases h : st.traces.lookup tid with
  | none => simp [h, lookup_assocSet]
  | some steps => simp [h, lookup_assocSet]

theorem gchat_snd (g : Gateway) (msgs : List Message)
    (tools : Option (List ToolSchema)) (st : OrchSt) :
    ((gchat g msgs tools) st).2 = { st with gcalls := st.gcalls + 1 } := by
  unfold gchat
  cases g st.gcalls msgs tools <;> rfl

theorem liftE_apply {α : Type} (x : Except PyErr α) (st : OrchSt) :
    (liftE x) st = (x, st) := rfl

/-! ## Stage-effect invariants -/

theorem stageEffect_refl (st : OrchSt) : StageEffect st st :=
  ⟨rfl, rfl, [], by simp, by simp⟩

theorem stageEffect_trans {a b c : OrchSt} (h1 : StageEffect a b)
    (h2 : StageEffect b c) : StageEffect a c := by
  obtain ⟨hb1, hs1, d1, hq1, hd1⟩ := h1
  obtain ⟨hb2, hs2, d2, hq2, hd2⟩ := h2
  refine ⟨hb2.trans hb1, hs2.trans hs1, d1 ++ d2, ?_, ?_⟩
  · rw [hq2, hq1, List.append_assoc]
  · intro e he
    rcases List.mem_append.mp he with h | h
    · exact hd1 e h
    · exact hd2 e h

theorem gchat_effect (g : Gateway) (msgs : List Message)
    (tools : Option (List ToolSchema)) (st : OrchSt) :
    StageEffect st ((gchat g msgs tools) st).2 := by
  rw [gchat_snd]
  exact ⟨rfl, rfl, [], by simp, by simp⟩

theorem logStep_effect (tid agent action reasoning : String)
    (tcs : List ToolCallRec) (tok : Nat) (cost : ℚ) (st : OrchSt) :
    StageEffect st (logStepSt tid agent action reasoning tcs tok cost st) := by
  refine ⟨rfl, rfl, if st.tracerSink then tcs.map (mkToolCallEvent agent) else [],
    logStepSt_queue tid agent action reasoning tcs tok cost st, ?_⟩
  intro e he
  by_cases hs : st.tracerSink
  · simp [hs] at he
    obtain ⟨tc, _, htc⟩ := he
    exact ⟨agent, tc, htc.symm⟩
  · simp [hs] at he

theorem procToolCalls_snd (B : Backend) (tcs : List LLMToolUse) (st : OrchSt) :
    ((procToolCalls B tcs) st).2 = st := by
  induction tcs generalizing st with
  | nil => rfl
  | cons tc rest ih =>
    simp only [procToolCalls, bind_def, M.bind, liftE]
    cases executeTool B tc.name tc.input with
    | error e => rfl
    | ok v =>
      rcases h : (procToolCalls B rest) st with ⟨r, st1⟩
      have hst : st1 = st := by
        have := ih st
        rw [h] at this
        exact this
      cases r <;> simp [h, hst, pure_def, M.pure]

theorem procToolCalls_ok (B : Backend) (tcs : List LLMToolUse) (st : OrchSt)
    (h : ∀ tc ∈ tcs, (executeTool B tc.name tc.input).isOk = true) :
    ∃ v, (procToolCalls B tcs) st = (.ok v, st) := by
  induction tcs generalizing st with
  | nil => exact ⟨([], []), rfl⟩
  | cons tc rest ih =>
    have htc := h tc (by simp)
    rcases hx : executeTool B tc.name tc.input with e | v
    · rw [hx] at htc
      simp [Except.isOk, Except.toBool] at htc
    · obtain ⟨v2, hv2⟩ := ih st (fun tc2 h2 => h tc2 (by simp [h2]))
      refine ⟨(v :: v2.1, .tool_result tc.id (Json.dumps v.result) :: v2.2), ?_⟩
      simp only [procToolCalls, bind_def, M.bind, liftE, hx, hv2, pure_def, M.pure]

theorem pure_effect {α : Type} (a : α) (st : OrchSt) :
    StageEffect st ((M.pure a) st).2 := stageEffect_refl st

theorem liftE_effect {α : Type} (x : Except PyErr α) (st : OrchSt) :
    StageEffect st ((liftE x) st).2 := stageEffect_refl st

/-- Composition principle: a bind has the stage effect when its head does
and every successful continuation does. -/
theorem bind_effect {α β : Type} (x : M α) (f : α → M β) (st : OrchSt)
    (hx : StageEffect st (x st).2)
    (hf : ∀ a st1, x st = (.ok a, st1) → StageEffect st1 ((f a) st1).2) :
    StageEffect st ((x >>= f) st).2 := by
  rcases h : x st with ⟨r, st1⟩
  rw [h] at hx
  cases r with
  | error e =>
    simp only [bind_def, M.bind, h]
    exact hx
  | ok a =>
    simp only [bind_def, M.bind, h]
    exact stageEffect_trans hx (hf a st1 h)

/-- Analogous composition principle for the gateway call counter. -/
theorem bind_gcalls {α β : Type} (x : M α) (f : α → M β) (st : OrchSt) (k1 k2 : Nat)
    (hx : (x st).2.gcalls = st.gcalls + k1)
    (hf : ∀ a st1, x st = (.ok a, st1) → ((f a) st1).2.gcalls = st1.gcalls + k2)
    (herr : (x st).1.isOk = false → k2 = 0) :
    ((x >>= f) st).2.gcalls = st.gcalls + (k1 + k2) := by
  rcases h : x st with ⟨r, st1⟩
  rw [h] at hx
  have hx1 : st1.gcalls = st.gcalls + k1 := hx
  cases r with
  | error e =>
    have hk2 : k2 = 0 := by
      apply herr
      rw [h]
      rfl
    simp only [bind_def, M.bind, h]
    omega
  | ok a =>
    have hf1 : ((f a) st1).2.gcalls = st1.gcalls + k2 := hf a st1 h
    simp only [bind_def, M.bind, h]
    omega

theorem researchProcTools_effect (B : Backend) (tid : String)
    (tcs : List LLMToolUse) (count : Nat) (st : OrchSt) :
    StageEffect st ((researchProcTools B tid tcs count) st).2
      ∧ ((researchProcTools B tid tcs count) st).2.gcalls = st.gcalls := by
  induction tcs generalizing count st with
  | nil => exact ⟨stageEffect_refl st, rfl⟩
  | cons tc rest ih =>
    simp only [researchProcTools, bind_def, M.bind, liftE, logStep_apply]
    cases executeTool B tc.name tc.input with
    | error e => exact ⟨stageEffect_refl st, rfl⟩
    | ok v =>
      set st1 := logStepSt tid "research" ("tool_call:" ++ tc.name)
        ("Called " ++ tc.name ++ " with " ++ Json.dumps tc.input) [v] 0 0 st with hst1
      have heff1 : StageEffect st st1 := logStep_effect _ _ _ _ _ _ _ st
      have hgc1 : st1.gcalls = st.gcalls := rfl
      rcases hr : (researchProcTools B tid rest (count + 1)) st1 with ⟨rr, st2⟩
      have hrest := ih (count + 1) st1
      rw [hr] at hrest
      cases rr with
      | error e =>
        simp only [hr]
        exact ⟨stageEffect_trans heff1 hrest.1, by
          have h2 : st2.gcalls = st1.gcalls := hrest.2
          simp [h2, hgc1]⟩
      | ok c2b =>
        simp only [hr]
        exact ⟨stageEffect_trans heff1 hrest.1, by
          have h2 : st2.gcalls = st1.gcalls := hrest.2
          simp [pure_def, M.pure, h2, hgc1]⟩

theorem researchProcTools_ok (B : Backend) (tid : String)
    (tcs : List LLMToolUse) (count : Nat) (st : OrchSt)
    (h : ∀ tc ∈ tcs, (executeTool B tc.name tc.input).isOk = true) :
    ∃ blocks st1, (researchProcTools B tid tcs count) st
        = (.ok (count + tcs.length, blocks), st1)
      ∧ st1.gcalls = st.gcalls := by
  induction tcs generalizing count st with
  | nil => exact ⟨[], st, rfl, rfl⟩
  | cons tc rest ih =>
    have htc := h tc (by simp)
    rcases hx : executeTool B tc.name tc.input with e | v
    · rw [hx] at htc
      simp [Except.isOk, Except.toBool] at htc
    · set st1 := logStepSt tid "research" ("tool_call:" ++ tc.name)
        ("Called " ++ tc.name ++ " with " ++ Json.dumps tc.input) [v] 0 0 st with hst1
      obtain ⟨blocks2, st2, hrun, hgc2⟩ :=
        ih (count + 1) st1 (fun tc2 h2 => h tc2 (by simp [h2]))
      refine ⟨.tool_result tc.id (Json.dumps v.result) :: blocks2, st2, ?_, ?_⟩
      · have harith : count + 1 + rest.length = count + (rest.length + 1) := by omega
        simp only [researchProcTools, bind_def, M.bind, liftE, hx, logStep_apply,
          ← hst1, hrun, pure_def, M.pure, List.length_cons]
        rw [← harith]
      · rw [hgc2]
        rfl

theorem gchat_ok (g : Gateway) (msgs : List Message)
    (tools : Option (List ToolSchema)) (st : OrchSt) (r : Response)
    (h : g st.gcalls msgs tools = .ok r) :
    (gchat g msgs tools) st = (.ok r, { st with gcalls := st.gcalls + 1 }) := by
  simp [gchat, h]

/-! ## Loop invariants -/

theorem triageLoop_effect (B : Backend) (g : Gateway) (schemas : List ToolSchema) :
    ∀ fuel msgs u cs last st,
      StageEffect st ((triageLoop B g schemas fuel msgs u cs last) st).2 := by
  intro fuel
  induction fuel with
  | zero => intro msgs u cs last st; exact stageEffect_refl st
  | succ n ih =>
    intro msgs u cs last st
    simp only [triageLoop]
    apply bind_effect
    · exact gchat_effect g _ _ st
    · intro resp st1 _
      by_cases he : resp.tool_calls.isEmpty
      · simp only [he, if_true]
        exact stageEffect_refl st1
      · simp only [he, if_false, Bool.false_eq_true]
        apply bind_effect
        · rw [procToolCalls_snd]
          exact stageEffect_refl st1
        · intro a st2 _
          obtain ⟨recs, blocks⟩ := a
          exact ih _ _ _ _ st2

theorem remediationLoop_effect (B : Backend) (g : Gateway)
    (tools : Option (List ToolSchema)) :
    ∀ fuel msgs u cs last st,
      StageEffect st ((remediationLoop B g tools fuel msgs u cs last) st).2 := by
  intro fuel
  induction fuel with
  | zero => intro msgs u cs last st; exact stageEffect_refl st
  | succ n ih =>
    intro msgs u cs last st
    simp only [remediationLoop]
    apply bind_effect
    · exact gchat_effect g _ _ st
    · intro resp st1 _
      by_cases he : resp.tool_calls.isEmpty
      · simp only [he, if_true]
        exact stageEffect_refl st1
      · simp only [he, if_false, Bool.false_eq_true]
        apply bind_effect
        · rw [procToolCalls_snd]
          exact stageEffect_refl st1
        · intro a st2 _
          obtain ⟨recs, blocks⟩ := a
          exact ih _ _ _ _ st2

theorem researchLoop_effect (B : Backend) (g : Gateway) (tid : String) :
    ∀ fuel count msgs u last st,
      StageEffect st ((researchLoop B g tid fuel count msgs u last) st).2 := by
  intro fuel
  induction fuel with
  | zero => intro count msgs u last st; exact stageEffect_refl st
  | succ n ih =>
    intro count msgs u last st
    simp only [researchLoop]
    by_cases hc : MAX_TOOL_CALLS ≤ count
    · simp only [if_pos hc]
      exact stageEffect_refl st
    · simp only [if_neg hc]
      apply bind_effect
      · exact gchat_effect g _ _ st
      · intro resp st1 _
        by_cases he : resp.tool_calls.isEmpty
        · simp only [he, if_true]
          exact stageEffect_refl st1
        · simp only [he, if_false, Bool.false_eq_true]
          apply bind_effect
          · exact (researchProcTools_effect B tid resp.tool_calls count st1).1
          · intro a st2 _
            obtain ⟨count1, blocks⟩ := a
            by_cases hc1 : MAX_TOOL_CALLS ≤ count1
            · simp only [if_pos hc1]
              apply bind_effect
              · exact gchat_effect g _ _ st2
              · intro resp2 st3 _
                exact stageEffect_refl st3
            · simp only [if_neg hc1]
              exact ih _ _ _ _ st2

theorem triageLoop_calls (B : Backend) (g : Gateway) (schemas : List ToolSchema)
    (hg : AlwaysToolCalls B g) :
    ∀ fuel msgs u cs last st,
      ((triageLoop B g schemas fuel msgs u cs last) st).2.gcalls
        = st.gcalls + fuel := by
  intro fuel
  induction fuel with
  | zero => intro msgs u cs last st; rfl
  | succ n ih =>
    intro msgs u cs last st
    have hcall := hg st.gcalls (sysMsg TRIAGE_SYSTEM_PROMPT :: msgs) (some schemas)
    rcases hgr : g st.gcalls (sysMsg TRIAGE_SYSTEM_PROMPT :: msgs) (some schemas)
      with r | m | _ <;> rw [hgr] at hcall
    case raise => exact absurd hcall (by simp)
    case hang => exact absurd hcall (by simp)
    case ok =>
      obtain ⟨hne, hexec⟩ := hcall
      have hemp : r.tool_calls.isEmpty = false := by
        cases hr : r.tool_calls with
        | nil => exact absurd hr hne
        | cons a l => rfl
      obtain ⟨v, hv⟩ :=
        procToolCalls_ok B r.tool_calls { st with gcalls := st.gcalls + 1 } hexec
      simp only [triageLoop, bind_def, M.bind, gchat_ok g _ _ st r hgr, hemp,
        if_false, Bool.false_eq_true, hv]
      rw [ih]
      have hrec : ({ st with gcalls := st.gcalls + 1 } : OrchSt).gcalls
          = st.gcalls + 1 := rfl
      omega

theorem remediationLoop_calls (B : Backend) (g : Gateway)
    (tools : Option (List ToolSchema)) (hg : AlwaysToolCalls B g) :
    ∀ fuel msgs u cs last st,
      ((remediationLoop B g tools fuel msgs u cs last) st).2.gcalls
        = st.gcalls + fuel := by
  intro fuel
  induction fuel with
  | zero => intro msgs u cs last st; rfl
  | succ n ih =>
    intro msgs u cs last st
    have hcall := hg st.gcalls (sysMsg REMEDIATION_SYSTEM_PROMPT :: msgs) tools
    rcases hgr : g st.gcalls (sysMsg REMEDIATION_SYSTEM_PROMPT :: msgs) tools
      with r | m | _ <;> rw [hgr] at hcall
    case raise => exact absurd hcall (by simp)
    case hang => exact absurd hcall (by simp)
    case ok =>
      obtain ⟨hne, hexec⟩ := hcall
      have hemp : r.tool_calls.isEmpty = false := by
        cases hr : r.tool_calls with
        | nil => exact absurd hr hne
        | cons a l => rfl
      obtain ⟨v, hv⟩ :=
        procToolCalls_ok B r.tool_calls { st with gcalls := st.gcalls + 1 } hexec
      simp only [remediationLoop, bind_def, M.bind, gchat_ok g _ _ st r hgr, hemp,
        if_false, Bool.false_eq_true, hv]
      rw [ih]
      have hrec : ({ st with gcalls := st.gcalls + 1 } : OrchSt).gcalls
          = st.gcalls + 1 := rfl
      omega

theorem researchLoop_calls (B : Backend) (g : Gateway) (tid : String)
    (hg : OneToolPerCall B g) :
    ∀ fuel count msgs u last st, count + fuel = MAX_TOOL_CALLS → 0 < fuel →
      ((researchLoop B g tid fuel count msgs u last) st).2.gcalls
        = st.gcalls + fuel + 1 := by
  intro fuel
  induction fuel with
  | zero => intro count msgs u last st _ h0; exact absurd h0 (by omega)
  | succ n ih =>
    intro count msgs u last st hcf _
    have hclt : ¬ MAX_TOOL_CALLS ≤ count := by omega
    have hcall := hg st.gcalls (sysMsg RESEARCH_SYSTEM_PROMPT :: msgs)
      (some TOOL_SCHEMAS)
    rcases hgr : g st.gcalls (sysMsg RESEARCH_SYSTEM_PROMPT :: msgs)
      (some TOOL_SCHEMAS) with r | m | _ <;> rw [hgr] at hcall
    case raise => exact absurd hcall (by simp)
    case hang => exact absurd hcall (by simp)
    case ok =>
      obtain ⟨hlen, hexec⟩ := hcall
      have hemp : r.tool_calls.isEmpty = false := by
        cases hr : r.tool_calls with
        | nil => rw [hr] at hlen; simp at hlen
        | cons a l => rfl
      obtain ⟨blocks, st2, hrun, hgc2⟩ :=
        researchProcTools_ok B tid r.tool_calls count
          { st with gcalls := st.gcalls + 1 } hexec
      rw [hlen] at hrun
      simp only [researchLoop, if_neg hclt, bind_def, M.bind,
        gchat_ok g _ _ st r hgr, hemp, if_false, Bool.false_eq_true, hrun]
      have hgc2n : st2.gcalls = st.gcalls + 1 := hgc2
      by_cases hc1 : MAX_TOOL_CALLS ≤ count + 1
      · rcases hgr2 : g st2.gcalls (sysMsg RESEARCH_SYSTEM_PROMPT ::
            (msgs ++ [assistantMsg r, ⟨"user", blocks⟩]
              ++ [⟨"user", [Block.text finalAnswerTurn]⟩])) none with r2 | m2 | _
        · simp only [if_pos hc1, bind_def, M.bind,
            gchat_ok g _ none st2 r2 hgr2, pure_def, M.pure]
          have hrec : ({ st2 with gcalls := st2.gcalls + 1 } : OrchSt).gcalls
              = st2.gcalls + 1 := rfl
          omega
        · have hcontra := hg st2.gcalls (sysMsg RESEARCH_SYSTEM_PROMPT ::
            (msgs ++ [assistantMsg r, ⟨"user", blocks⟩]
              ++ [⟨"user", [Block.text finalAnswerTurn]⟩])) none
          rw [hgr2] at hcontra
          exact absurd hcontra (by simp)
        · have hcontra := hg st2.gcalls (sysMsg RESEARCH_SYSTEM_PROMPT ::
            (msgs ++ [assistantMsg r, ⟨"user", blocks⟩]
              ++ [⟨"user", [Block.text finalAnswerTurn]⟩])) none
          rw [hgr2] at hcontra
          exact absurd hcontra (by simp)
      · simp only [if_neg hc1]
        rw [ih (count + 1) _ _ _ st2 (by omega) (by omega)]
        omega

/-! ## Stage-run invariants -/

theorem triageRun_effect (B : Backend) (g : Gateway) (alert : Alert)
    (tid : String) (st : OrchSt) :
    StageEffect st ((triageRun B g alert tid) st).2 := by
  simp only [triageRun]
  apply bind_effect
  · exact triageLoop_effect B g _ _ _ _ _ _ st
  · rintro ⟨resp, usage, calls⟩ st1 _
    apply bind_effect
    · rw [logStep_apply]
      exact logStep_effect _ _ _ _ _ _ _ st1
    · intro a st2 _
      apply bind_effect
      · exact liftE_effect _ st2
      · intro parsed st3 _
        cases parsed <;> exact stageEffect_refl st3

theorem researchRun_effect (B : Backend) (g : Gateway) (tri : Json)
    (tid : String) (st : OrchSt) :
    StageEffect st ((researchRun B g tri tid) st).2 := by
  simp only [researchRun]
  apply bind_effect
  · exact liftE_effect _ st
  · intro prompt st0 _
    apply bind_effect
    · exact researchLoop_effect B g tid _ _ _ _ _ st0
    · rintro ⟨resp, usage⟩ st1 _
      apply bind_effect
      · rw [logStep_apply]
        exact logStep_effect _ _ _ _ _ _ _ st1
      · intro a st2 _
        exact liftE_effect _ st2

theorem remediationRun_effect (B : Backend) (g : Gateway) (res : Json)
    (tid : String) (st : OrchSt) :
    StageEffect st ((remediationRun B g res tid) st).2 := by
  simp only [remediationRun]
  apply bind_effect
  · exact liftE_effect _ st
  · intro prompt st0 _
    apply bind_effect
    · exact remediationLoop_effect B g _ _ _ _ _ _ st0
    · rintro ⟨resp, usage, calls⟩ st1 _
      apply bind_effect
      · rw [logStep_apply]
        exact logStep_effect _ _ _ _ _ _ _ st1
      · intro a st2 _
        apply bind_effect
        · exact liftE_effect _ st2
        · intro parsed st3 _
          exact liftE_effect _ st3

theorem triageRun_calls (B : Backend) (g : Gateway) (alert : Alert)
    (tid : String) (st : OrchSt) (hg : AlwaysToolCalls B g) :
    ((triageRun B g alert tid) st).2.gcalls = st.gcalls + 4 := by
  simp only [triageRun]
  have h4 : (4 : Nat) = 4 + 0 := rfl
  rw [h4]
  apply bind_gcalls
  · exact triageLoop_calls B g _ hg 4 _ _ _ _ st
  · rintro ⟨resp, usage, calls⟩ st1 _
    simp only [bind_def, M.bind, logStep_apply, liftE]
    cases hx : extract_jsonE resp.content with
    | error e => rfl
    | ok o => cases o <;> rfl
  · intro _
    rfl

theorem researchRun_calls (B : Backend) (g : Gateway) (tri : Json)
    (tid : String) (st : OrchSt) (hg : OneToolPerCall B g)
    (hp : (researchPrompt tri).isOk = true) :
    ((researchRun B g tri tid) st).2.gcalls
      = st.gcalls + (MAX_TOOL_CALLS + 1) := by
  rcases hpr : researchPrompt tri with e | p
  · rw [hpr] at hp
    simp [Except.isOk, Except.toBool] at hp
  · simp only [researchRun, bind_def, M.bind, liftE, hpr]
    have h9 : MAX_TOOL_CALLS + 1 = (MAX_TOOL_CALLS + 1) + 0 := rfl
    rw [h9]
    apply bind_gcalls
    · have hloop := researchLoop_calls B g tid hg MAX_TOOL_CALLS 0
        [⟨"user", [Block.text p]⟩] ⟨0, 0⟩ dummyResp st rfl
        (by simp [MAX_TOOL_CALLS])
      rw [hloop]
      omega
    · rintro ⟨resp, usage⟩ st1 _
      simp only [bind_def, M.bind, logStep_apply, liftE]
      rfl
    · intro _
      rfl

theorem remediationRun_calls (B : Backend) (g : Gateway) (res : Json)
    (tid : String) (st : OrchSt) (hg : AlwaysToolCalls B g)
    (hp : (remediationPrompt res).isOk = true) :
    ((remediationRun B g res tid) st).2.gcalls = st.gcalls + 3 := by
  rcases hpr : remediationPrompt res with e | p
  · rw [hpr] at hp
    simp [Except.isOk, Except.toBool] at hp
  · simp only [remediationRun, bind_def, M.bind, liftE, hpr]
    have h3 : (3 : Nat) = 3 + 0 := rfl
    rw [h3]
    apply bind_gcalls
    · exact remediationLoop_calls B g _ hg 3 _ _ _ _ st
    · rintro ⟨resp, usage, calls⟩ st1 _
      simp only [bind_def, M.bind, logStep_apply, liftE]
      cases hx : remediationParseResult resp.content with
      | error e => rfl
      | ok v => cases hy : ensureApproval v <;> rfl
    · intro _
      rfl

/-! ## Report-assembly inversion helpers -/

theorem except_bind_ok {e0 α β : Type} (a : α) (f : α → Except e0 β) :
    (Except.ok a : Except e0 α) >>= f = f a := rfl

theorem except_bind_error {e0 α β : Type} (e : e0) (f : α → Except e0 β) :
    (Except.error e : Except e0 α) >>= f = .error e := rfl

theorem clampConfidenceE_bounds (o : Option Json) (q : ℚ)
    (h : clampConfidenceE o = .ok q) : 0 ≤ q ∧ q ≤ 1 := by
  cases o with
  | none =>
    simp only [clampConfidenceE] at h
    cases h
    exact ⟨le_refl 0, by norm_num⟩
  | some v =>
    cases v with
    | num x =>
      simp only [clampConfidenceE] at h
      cases h
      constructor
      · exact le_min (by norm_num) (le_max_left 0 x)
      · exact min_le_left 1 _
    | bool b =>
      simp only [clampConfidenceE] at h
      cases h
      constructor
      · exact le_min (by norm_num) (le_max_left 0 _)
      · exact min_le_left 1 _
    | null => simp [clampConfidenceE] at h
    | str s => simp [clampConfidenceE] at h
    | arr xs => simp [clampConfidenceE] at h
    | obj kvs => simp [clampConfidenceE] at h

theorem buildReportE_ok (iid : String) (alert : Alert) (tid : String) (dur : ℚ)
    (tri res rem : Json) (st : OrchSt) (rep : IncidentReport)
    (h : buildReportE iid alert tid dur tri res rem st = .ok rep) :
    rep.agent_trace = getTraceSt st tid
      ∧ rep.total_tokens = getTotalTokens st tid
      ∧ rep.total_cost_usd = getTotalCost st tid
      ∧ (∃ o, pyGetE res "confidence" = .ok o
            ∧ clampConfidenceE o = .ok rep.confidence_score)
      ∧ (∃ o, pyGetE rem "requires_human_approval" = .ok o
            ∧ requiresApprovalE o = .ok rep.requires_human_approval) := by
  unfold buildReportE at h
  rcases h1 : remediationStepsE rem with e | steps
  · rw [h1] at h
    simp only [except_bind_error] at h
    exact absurd h (by simp)
  rw [h1] at h
  simp only [except_bind_ok] at h
  rcases h2 : pyGetD tri "summary" (.str "Analysis incomplete") with e | sv
  · rw [h2] at h
    simp only [except_bind_error] at h
    exact absurd h (by simp)
  rw [h2] at h
  simp only [except_bind_ok] at h
  rcases h3 : strFieldE sv with e | summary
  · rw [h3] at h
    simp only [except_bind_error] at h
    exact absurd h (by simp)
  rw [h3] at h
  simp only [except_bind_ok] at h
  rcases h4 : pyGetD res "root_cause" (.str "Could not determine root cause")
    with e | rv
  · rw [h4] at h
    simp only [except_bind_error] at h
    exact absurd h (by simp)
  rw [h4] at h
  simp only [except_bind_ok] at h
  rcases h5 : strFieldE rv with e | root
  · rw [h5] at h
    simp only [except_bind_error] at h
    exact absurd h (by simp)
  rw [h5] at h
  simp only [except_bind_ok] at h
  rcases h6 : pyGetE res "confidence" with e | confO
  · rw [h6] at h
    simp only [except_bind_error] at h
    exact absurd h (by simp)
  rw [h6] at h
  simp only [except_bind_ok] at h
  rcases h7 : clampConfidenceE confO with e | conf
  · rw [h7] at h
    simp only [except_bind_error] at h
    exact absurd h (by simp)
  rw [h7] at h
  simp only [except_bind_ok] at h
  rcases h8 : pyGetE rem "requires_human_approval" with e | apprO
  · rw [h8] at h
    simp only [except_bind_error] at h
    exact absurd h (by simp)
  rw [h8] at h
  simp only [except_bind_ok] at h
  rcases h9 : requiresApprovalE apprO with e | appr
  · rw [h9] at h
    simp only [except_bind_error] at h
    exact absurd h (by simp)
  rw [h9] at h
  simp only [except_bind_ok, Except.ok.injEq] at h
  subst h
  exact ⟨rfl, rfl, rfl, ⟨confO, rfl, h7⟩, ⟨apprO, rfl, h9⟩⟩

/-- C5: for every completed or degraded run, the assembled report's
aggregate totals equal the sums over its attached trace — both are
recomputed from the same tracer state — and a logged step is appended to
the end of the trace, never mutating or removing prior steps. -/
theorem C5_trace_totals :
    (∀ iid alert tid dur tri res rem st rep,
        buildReportE iid alert tid dur tri res rem st = .ok rep →
          rep.total_tokens = (rep.agent_trace.map AgentStep.tokens_used).sum
            ∧ rep.total_cost_usd = (rep.agent_trace.map AgentStep.cost_usd).sum)
      ∧ (∀ tid agent action reasoning tcs tok cost st,
          getTraceSt (((logStep tid agent action reasoning tcs tok cost) st).2) tid
            = getTraceSt st tid
              ++ [logStepStep agent action reasoning tcs tok cost]) := by
  constructor
  · intro iid alert tid dur tri res rem st rep h
    obtain ⟨htr, htok, hcost, _, _⟩ :=
      buildReportE_ok iid alert tid dur tri res rem st rep h
    rw [htr, htok, hcost]
    exact ⟨rfl, rfl⟩
  · intro tid agent action reasoning tcs tok cost st
    exact logStep_getTrace tid agent action reasoning tcs tok cost st

/-- C5 witness: the totals equalities hold for a concretely assembled
degraded report. -/
theorem C5_trace_totals_witness :
    ∃ rep, buildReportE "INC-1" sampleAlert "trace-1" 0
        (.obj []) (.obj []) (.obj []) initSt = .ok rep
      ∧ rep.total_tokens = (rep.agent_trace.map AgentStep.tokens_used).sum
      ∧ rep.total_cost_usd = (rep.agent_trace.map AgentStep.cost_usd).sum := by
  refine ⟨_, rfl, ?_⟩
  exact C5_trace_totals.1 "INC-1" sampleAlert "trace-1" 0
    (.obj []) (.obj []) (.obj []) initSt _ rfl

/-- C6: with an event sink configured at construction time, a log_step call
emits exactly one `tool_call` StreamEvent per contained ToolCall — carrying
that call's tool name and the stage name — and a tracer without a sink
emits nothing. -/
theorem C6_sink_emission :
    ∀ tid agent action reasoning tcs tok cost st,
      ((logStep tid agent action reasoning tcs tok cost) st).2.queue
          = st.queue
            ++ (if st.tracerSink then tcs.map (mkToolCallEvent agent) else [])
        ∧ ∀ tc : ToolCallRec,
            (mkToolCallEvent agent tc).event_type = "tool_call"
              ∧ (mkToolCallEvent agent tc).agent_name = some agent
              ∧ (mkToolCallEvent agent tc).data
                  = .kv [("action", .str tc.tool_name)] := by
  intro tid agent action reasoning tcs tok cost st
  exact ⟨rfl, fun tc => ⟨rfl, rfl, rfl⟩⟩

/-- C10: extract_json terminates on every input without raising, but its
value is not always a map or None: a JSON-array input is parsed and
returned as that array, contradicting the declared
`dict[str, Any] | None` return annotation. -/
theorem C10_extract_json_array :
    extract_json "[1, 2]" = some (Json.arr [Json.num 1, Json.num 2])
      ∧ (Json.arr [Json.num 1, Json.num 2]).isObj = false
      ∧ (extract_jsonE "[1, 2]").isOk = true := by
  exact ⟨rfl, rfl, rfl⟩

/-- C2 counterexample: a final response whose first-brace-to-last-brace
substring is not valid JSON makes the Research and Remediation result
extractions raise JSONDecodeError instead of substituting their defaults. -/
theorem C2_cex_substring_raises :
    researchParseResult "\x7boops\x7d" (.obj [])
        = .error (.exc "json.decoder.JSONDecodeError")
      ∧ remediationParseResult "\x7boops\x7d"
        = .error (.exc "json.decoder.JSONDecodeError") := ⟨rfl, rfl⟩

/-- C2 amended: Triage's extract_json never raises; the Research and
Remediation extractions raise exactly when the direct parse fails, a
brace-delimited substring exists, and that substring fails to parse too
(the unguarded second json.loads; Research's default branch additionally
requires the triage result to support `.get`). -/
theorem C2_amended_extraction :
    (∀ s, (extract_jsonE s).isOk = true)
      ∧ (∀ s tri, (researchParseResult s tri).isOk
          = ((jsonLoads s).isSome ||
              (match braceSlice s.data with
               | some sub => (jsonLoads (String.mk sub)).isSome
               | none => (pyGetE tri "affected_services").isOk)))
      ∧ (∀ s, (remediationParseResult s).isOk
          = ((jsonLoads s).isSome ||
              (match braceSlice s.data with
               | some sub => (jsonLoads (String.mk sub)).isSome
               | none => true))) := by
  refine ⟨?_, ?_, ?_⟩
  · intro s
    unfold extract_jsonE jsonLoadsExc
    cases h1 : jsonLoads (extractStripped s) with
    | some v => (try simp only [h1]); rfl
    | none =>
      (try simp only [h1])
      cases h2 : braceSlice (extractStripped s).data with
      | none => (try simp only [h2]); rfl
      | some sub =>
        (try simp only [h2])
        cases h3 : jsonLoads (String.mk sub) <;> (try simp only [h3]) <;> rfl
  · intro s tri
    unfold researchParseResult jsonLoadsExc
    cases h1 : jsonLoads s with
    | some v => (try simp only [h1]); rfl
    | none =>
      (try simp only [h1])
      cases h2 : braceSlice s.data with
      | some sub =>
        (try simp only [h2])
        cases h3 : jsonLoads (String.mk sub) <;> (try simp only [h3]) <;>
          simp [Except.isOk, Except.toBool]
      | none =>
        (try simp only [h2])
        cases h4 : pyGetE tri "affected_services" with
        | error e =>
          simp [pyGetD, h4, Except.map, Except.isOk, Except.toBool,
            except_bind_error]
        | ok o =>
          simp [pyGetD, h4, Except.map, Except.isOk, Except.toBool,
            except_bind_ok]
  · intro s
    unfold remediationParseResult jsonLoadsExc
    cases h1 : jsonLoads s with
    | some v => (try simp only [h1]); rfl
    | none =>
      (try simp only [h1])
      cases h2 : braceSlice s.data with
      | some sub =>
        (try simp only [h2])
        cases h3 : jsonLoads (String.mk sub) <;> (try simp only [h3]) <;>
          simp [Except.isOk, Except.toBool]
      | none => (try simp only [h2]); rfl

/-- C3 counterexample: executing a registered tool with its required
`service` argument missing raises a KeyError out of ToolRegistry.execute
instead of capturing it into the ToolCall result. -/
theorem C3_cex_handler_error_propagates :
    executeTool stubBackend "search_logs" (Json.obj [])
      = .error (.exc "KeyError: service") := rfl

/-- C3 amended: an unknown tool name never raises and yields a ToolCall
whose result carries a structured "unknown tool" error, but a handler's own
error — such as the KeyError for a missing required `service` argument —
propagates out of `execute` rather than being captured into the result. -/
theorem C3_amended_execute :
    (∀ (B : Backend) name args, handlerNames.contains name = false →
        executeTool B name args
          = .ok { tool_name := name, arguments := args,
                  result := .obj [("error", .str ("Unknown tool: " ++ name))],
                  latency_ms := 0, cost_usd := 0 })
      ∧ (∀ (B : Backend) (kvs : List (String × Json)),
          kvs.lookup "service" = none →
            executeTool B "search_logs" (.obj kvs)
              = .error (.exc "KeyError: service")) := by
  constructor
  · intro B name args h
    unfold executeTool
    rw [h]
    simp
  · intro B kvs h
    unfold executeTool
    have hc : handlerNames.contains "search_logs" = true := rfl
    rw [hc]
    simp only [if_true]
    unfold runHandler
    simp only [beq_self_eq_true, if_true, pyGetItemE]
    rw [h]
    simp [except_bind_error, Except.map]

/-- C3 witness: the amended statement at concrete inputs — an unregistered
name yields the structured error ToolCall, and an argument map without
`service` makes the search_logs handler raise. -/
theorem C3_amended_execute_witness :
    executeTool stubBackend "zap" (Json.obj [])
        = .ok { tool_name := "zap", arguments := Json.obj [],
                result := .obj [("error", .str ("Unknown tool: " ++ "zap"))],
                latency_ms := 0, cost_usd := 0 }
      ∧ executeTool stubBackend "search_logs" (.obj [("query", .str "x")])
        = .error (.exc "KeyError: service") :=
  ⟨C3_amended_execute.1 stubBackend "zap" (Json.obj []) rfl,
   C3_amended_execute.2 stubBackend [("query", .str "x")] rfl⟩

/-! ## Monadic inversion helpers -/

theorem M_bind_fst_ok {α β : Type} (x : M α) (f : α → M β) (st : OrchSt) (v : β)
    (h : ((x >>= f) st).1 = .ok v) :
    ∃ a st1, x st = (.ok a, st1) ∧ ((f a) st1).1 = .ok v := by
  rcases hx : x st with ⟨r, st1⟩
  cases r with
  | error e =>
    simp only [bind_def, M.bind, hx] at h
    exact absurd h (by simp)
  | ok a =>
    simp only [bind_def, M.bind, hx] at h
    exact ⟨a, st1, rfl, h⟩

theorem lookup_append_none {α : Type} (l1 l2 : List (String × α)) (k : String)
    (h : l1.lookup k = none) : (l1 ++ l2).lookup k = l2.lookup k := by
  induction l1 with
  | nil => rfl
  | cons kv t ih =>
    obtain ⟨k0, v0⟩ := kv
    cases hk : k == k0 with
    | true => simp [List.lookup, hk] at h
    | false =>
      simp only [List.lookup, hk] at h
      simp only [List.cons_append, List.lookup, hk]
      exact ih h

theorem ensureApproval_ok (p v : Json) (h : ensureApproval p = .ok v) :
    pyGetE v "requires_human_approval" ≠ .ok none := by
  cases p with
  | obj kvs =>
    by_cases hs : (kvs.lookup "requires_human_approval").isSome
    · simp only [ensureApproval, hs, if_true, Except.ok.injEq] at h
      subst h
      simp only [pyGetE, ne_eq, Except.ok.injEq]
      intro heq
      rw [heq] at hs
      simp at hs
    · simp only [ensureApproval, hs, if_false, Bool.false_eq_true,
        Except.ok.injEq] at h
      subst h
      have hnone : kvs.lookup "requires_human_approval" = none := by
        cases hl : kvs.lookup "requires_human_approval" with
        | none => rfl
        | some w => rw [hl] at hs; simp at hs
      simp only [pyGetE, ne_eq, Except.ok.injEq]
      rw [lookup_append_none kvs _ _ hnone]
      simp [List.lookup]
  | arr xs =>
    by_cases hs : xs.any (fun x =>
        match x with
        | .str s => s == "requires_human_approval"
        | _ => false)
    · simp only [ensureApproval, hs, if_true, Except.ok.injEq] at h
      subst h
      simp [pyGetE]
    · simp only [ensureApproval, hs, if_false, Bool.false_eq_true] at h
      exact absurd h (by simp)
  | str s =>
    by_cases hs : strContainsSub s.data "requires_human_approval".data
    · simp only [ensureApproval, hs, if_true, Except.ok.injEq] at h
      subst h
      simp [pyGetE]
    · simp only [ensureApproval, hs, if_false, Bool.false_eq_true] at h
      exact absurd h (by simp)
  | null => exact absurd h (by simp [ensureApproval])
  | bool b => exact absurd h (by simp [ensureApproval])
  | num q => exact absurd h (by simp [ensureApproval])

theorem gwOneTool_always : AlwaysToolCalls stubBackend gwOneTool := by
  intro i msgs tools
  refine ⟨by simp [respOneTool], ?_⟩
  intro tc htc
  simp only [respOneTool, gwOneTool, List.mem_singleton] at htc
  subst htc
  rfl

theorem gwOneTool_one : OneToolPerCall stubBackend gwOneTool := by
  intro i msgs tools
  refine ⟨by simp [respOneTool], ?_⟩
  intro tc htc
  simp only [respOneTool, gwOneTool, List.mem_singleton] at htc
  subst htc
  rfl

/-- C4 counterexample: with a gateway requesting exactly one tool call on
every invocation, the Research stage performs MAX_TOOL_CALLS + 1 = 9
gateway chat calls (its cap counts tool calls, and reaching it forces one
extra tools-disabled call), not its cap of 8. -/
theorem C4_cex_research_nine_calls :
    ((researchRun stubBackend gwOneTool (Json.obj []) "trace-1") initSt).2.gcalls
        = initSt.gcalls + (MAX_TOOL_CALLS + 1)
      ∧ initSt.gcalls + (MAX_TOOL_CALLS + 1) ≠ MAX_TOOL_CALLS := by
  constructor
  · exact researchRun_calls stubBackend gwOneTool (Json.obj []) "trace-1" initSt
      gwOneTool_one rfl
  · decide

/-- C4 amended: when the gateway returns tool-call responses on every
invocation (and the requested tool executions do not raise), Triage
performs exactly its 4 chat calls and Remediation exactly its 3; Research's
cap counts tool calls rather than iterations, and with exactly one tool
call per response it performs MAX_TOOL_CALLS + 1 = 9 chat calls: 8 in the
loop plus the forced tools-disabled final call. -/
theorem C4_amended_iteration_caps :
    ∀ (B : Backend) (g : Gateway) alert tri res tid st,
      (AlwaysToolCalls B g →
          ((triageRun B g alert tid) st).2.gcalls = st.gcalls + 4)
        ∧ (AlwaysToolCalls B g → (remediationPrompt res).isOk = true →
            ((remediationRun B g res tid) st).2.gcalls = st.gcalls + 3)
        ∧ (OneToolPerCall B g → (researchPrompt tri).isOk = true →
            ((researchRun B g tri tid) st).2.gcalls
              = st.gcalls + (MAX_TOOL_CALLS + 1)) := by
  intro B g alert tri res tid st
  exact ⟨fun hg => triageRun_calls B g alert tid st hg,
         fun hg hp => remediationRun_calls B g res tid st hg hp,
         fun hg hp => researchRun_calls B g tri tid st hg hp⟩

/-- C4 witness: the three exact call counts at the concrete one-tool-call
gateway. -/
theorem C4_amended_iteration_caps_witness :
    ((triageRun stubBackend gwOneTool sampleAlert "trace-1") initSt).2.gcalls
        = initSt.gcalls + 4
      ∧ ((remediationRun stubBackend gwOneTool (Json.obj []) "trace-1")
            initSt).2.gcalls = initSt.gcalls + 3
      ∧ ((researchRun stubBackend gwOneTool (Json.obj []) "trace-1")
            initSt).2.gcalls = initSt.gcalls + (MAX_TOOL_CALLS + 1) := by
  obtain ⟨ha, hb, hc⟩ := C4_amended_iteration_caps stubBackend gwOneTool
    sampleAlert (Json.obj []) (Json.obj []) "trace-1" initSt
  exact ⟨ha gwOneTool_always, hb gwOneTool_always rfl, hc gwOneTool_one rfl⟩

/-- C8: whenever the remediation stage result omits requires_human_approval
— in particular the empty result of every degraded run — the assembled
report has requires_human_approval = true; moreover a remediation run that
completes never omits the field (the stage inserts True). -/
theorem C8_requires_approval_default :
    (∀ iid alert tid dur tri res rem st rep,
        pyGetE rem "requires_human_approval" = .ok none →
        buildReportE iid alert tid dur tri res rem st = .ok rep →
        rep.requires_human_approval = true)
      ∧ (∀ (B : Backend) (g : Gateway) res tid st v,
          ((remediationRun B g res tid) st).1 = .ok v →
            pyGetE v "requires_human_approval" ≠ .ok none) := by
  constructor
  · intro iid alert tid dur tri res rem st rep hnone hb
    obtain ⟨_, _, _, _, o, ho, happr⟩ :=
      buildReportE_ok iid alert tid dur tri res rem st rep hb
    rw [hnone] at ho
    have ho2 : o = none := by
      cases ho
      rfl
    subst ho2
    simp only [requiresApprovalE, Except.ok.injEq] at happr
    exact happr.symm
  · intro B g res tid st v h
    unfold remediationRun at h
    obtain ⟨p, st1, _, h⟩ := M_bind_fst_ok _ _ _ _ h
    obtain ⟨rtc, st2, _, h⟩ := M_bind_fst_ok _ _ _ _ h
    obtain ⟨resp, usage, calls⟩ := rtc
    obtain ⟨stp, st3, _, h⟩ := M_bind_fst_ok _ _ _ _ h
    obtain ⟨parsed, st4, _, h⟩ := M_bind_fst_ok _ _ _ _ h
    have hens : ensureApproval parsed = .ok v := h
    exact ensureApproval_ok parsed v hens

set_option maxHeartbeats 1000000 in
/-- C8 witness: the report default at an explicitly empty remediation
result, and the field guarantee at a concrete completed remediation run. -/
theorem C8_requires_approval_default_witness :
    (∃ rep, buildReportE "INC-1" sampleAlert "trace-1" 0
          (.obj []) (.obj []) (.obj []) initSt = .ok rep
        ∧ rep.requires_human_approval = true)
      ∧ pyGetE
          ((((remediationRun stubBackend gwOk (Json.obj []) "trace-1")
              initSt).1.toOption).getD Json.null)
          "requires_human_approval" ≠ .ok none := by
  constructor
  · exact ⟨_, rfl, C8_requires_approval_default.1 "INC-1" sampleAlert "trace-1" 0
      (.obj []) (.obj []) (.obj []) initSt _ rfl rfl⟩
  · exact C8_requires_approval_default.2 stubBackend gwOk (Json.obj [])
      "trace-1" initSt _ rfl

theorem except_isOk_iff {e0 α : Type} (e : Except e0 α) :
    e.isOk = true ↔ ∃ v, e = .ok v := by
  cases e <;> simp [Except.isOk, Except.toBool]

theorem busSend_apply (fromA toA : String) (ty : MsgType) (c : Json)
    (tid : String) (st : OrchSt) :
    (busSend fromA toA ty c tid) st
      = (.ok ⟨fromA, toA, ty, c, tid⟩,
         { st with bus := st.bus ++ [⟨fromA, toA, ty, c, tid⟩] }) := rfl

/-- Full evaluation of `_run_pipeline` from explicit stage outcomes. -/
theorem runPipeline_eval (B : Backend) (g : Gateway) (alert : Alert)
    (tid : String) (st st1 st2 st3 : OrchSt) (t r m : Json) (o : Option Json)
    (h1 : (triageRun B g alert tid) st = (.ok t, st1))
    (h2 : (researchRun B g t tid)
        { st1 with bus := st1.bus ++ [⟨"triage", "research", .delegate, t, tid⟩] }
        = (.ok r, st2))
    (h3 : (remediationRun B g r tid)
        { st2 with bus := st2.bus
            ++ [⟨"research", "remediation", .delegate, r, tid⟩] }
        = (.ok m, st3))
    (h4 : pyGetE m "requires_human_approval" = .ok o) :
    (runPipeline B g alert tid) st
      = (.ok (t, r, m),
         { st3 with bus := st3.bus
             ++ [⟨"remediation", "orchestrator",
                  (if pyTruthyOpt o then .escalate else .respond), m, tid⟩] }) := by
  unfold runPipeline
  simp only [bind_def, M.bind]
  rw [h1]
  simp only [busSend_apply]
  rw [h2]
  simp only [busSend_apply]
  rw [h3]
  simp only [liftE, h4, busSend_apply, pure_def, M.pure]

/-- Evaluate one successful `M`-bind step. -/
theorem M_bind_ok_eval {α β : Type} (x : M α) (f : α → M β) (st : OrchSt)
    (a : α) (st1 : OrchSt) (hx : x st = (.ok a, st1)) :
    (x >>= f) st = (f a) st1 := by
  simp [bind_def, M.bind, hx]

/-- C9: when the pipeline completes, exactly one terminal message is sent
to the orchestrator — after the two delegate handoffs — and its kind is
escalate exactly when the remediation result's requires_human_approval is
truthy, respond otherwise. -/
theorem C9_terminal_escalation :
    ∀ (B : Backend) (g : Gateway) alert tid st,
      ((runPipeline B g alert tid) st).1.isOk = true →
      ∃ t r m,
        ((runPipeline B g alert tid) st).1 = .ok (t, r, m)
          ∧ ((runPipeline B g alert tid) st).2.bus
              = st.bus
                ++ [⟨"triage", "research", .delegate, t, tid⟩,
                    ⟨"research", "remediation", .delegate, r, tid⟩,
                    ⟨"remediation", "orchestrator", terminalKind m, m, tid⟩]
          ∧ ([(⟨"triage", "research", .delegate, t, tid⟩ : AgentMessage),
              ⟨"research", "remediation", .delegate, r, tid⟩,
              ⟨"remediation", "orchestrator", terminalKind m, m, tid⟩].filter
                (fun mm => mm.to_agent == "orchestrator"))
              = [⟨"remediation", "orchestrator", terminalKind m, m, tid⟩]
          ∧ (terminalKind m = .escalate
              ↔ pyTruthyOpt (terminalApproval m) = true) := by
  intro B g alert tid st hok
  obtain ⟨v, hv⟩ := (except_isOk_iff _).mp hok
  rw [runPipeline] at hv
  obtain ⟨t, st1, h1, hv⟩ := M_bind_fst_ok (triageRun B g alert tid) _ st v hv
  obtain ⟨msg1, st1b, hmsg1, hv⟩ :=
    M_bind_fst_ok (busSend "triage" "research" .delegate t tid) _ st1 v hv
  rw [busSend_apply] at hmsg1
  have hst1b : st1b
      = { st1 with bus := st1.bus
            ++ [⟨"triage", "research", .delegate, t, tid⟩] } :=
    (congrArg Prod.snd hmsg1).symm
  obtain ⟨r, st2, h2, hv⟩ := M_bind_fst_ok (researchRun B g t tid) _ st1b v hv
  obtain ⟨msg2, st2b, hmsg2, hv⟩ :=
    M_bind_fst_ok (busSend "research" "remediation" .delegate r tid) _ st2 v hv
  rw [busSend_apply] at hmsg2
  have hst2b : st2b
      = { st2 with bus := st2.bus
            ++ [⟨"research", "remediation", .delegate, r, tid⟩] } :=
    (congrArg Prod.snd hmsg2).symm
  obtain ⟨m, st3, h3, hv⟩ := M_bind_fst_ok (remediationRun B g r tid) _ st2b v hv
  obtain ⟨o, st4, h4, hv⟩ :=
    M_bind_fst_ok (liftE (pyGetE m "requires_human_approval")) _ st3 v hv
  have h4p : pyGetE m "requires_human_approval" = .ok o :=
    congrArg Prod.fst h4
  rw [hst1b] at h2
  rw [hst2b] at h3
  have happr : terminalApproval m = o := by
    rw [terminalApproval, h4p]
    rfl
  have hkind : (if pyTruthyOpt o then MsgType.escalate else MsgType.respond)
      = terminalKind m := by
    rw [terminalKind, happr]
  have heval := runPipeline_eval B g alert tid st st1 st2 st3 t r m o h1 h2 h3 h4p
  have hbus1 : st1.bus = st.bus := by
    have he := (triageRun_effect B g alert tid st).1
    rw [h1] at he
    exact he
  have hbus2 : st2.bus
      = st.bus ++ [⟨"triage", "research", .delegate, t, tid⟩] := by
    have he := (researchRun_effect B g t tid
      { st1 with bus := st1.bus
          ++ [⟨"triage", "research", .delegate, t, tid⟩] }).1
    rw [h2] at he
    rw [he, hbus1]
  have hbus3 : st3.bus
      = st.bus ++ [⟨"triage", "research", .delegate, t, tid⟩]
          ++ [⟨"research", "remediation", .delegate, r, tid⟩] := by
    have he := (remediationRun_effect B g r tid
      { st2 with bus := st2.bus
          ++ [⟨"research", "remediation", .delegate, r, tid⟩] }).1
    rw [h3] at he
    rw [he, hbus2]
  refine ⟨t, r, m, ?_, ?_, ?_, ?_⟩
  · rw [heval]
  · rw [heval]
    show st3.bus ++ _ = _
    rw [hbus3, hkind]
    simp [List.append_assoc]
  · rfl
  · cases hpt : pyTruthyOpt (terminalApproval m) <;>
      simp [terminalKind, hpt]

set_option maxHeartbeats 1000000 in
/-- C9 witness: the conclusion at a concrete scripted gateway whose
remediation result carries requires_human_approval = true. -/
theorem C9_terminal_escalation_witness :
    ∃ t r m,
      ((runPipeline stubBackend gwOk sampleAlert "trace-1") initSt).1
          = .ok (t, r, m)
        ∧ ((runPipeline stubBackend gwOk sampleAlert "trace-1") initSt).2.bus
            = initSt.bus
              ++ [⟨"triage", "research", .delegate, t, "trace-1"⟩,
                  ⟨"research", "remediation", .delegate, r, "trace-1"⟩,
                  ⟨"remediation", "orchestrator", terminalKind m, m, "trace-1"⟩]
        ∧ ([(⟨"triage", "research", .delegate, t, "trace-1"⟩ : AgentMessage),
            ⟨"research", "remediation", .delegate, r, "trace-1"⟩,
            ⟨"remediation", "orchestrator", terminalKind m, m, "trace-1"⟩].filter
              (fun mm => mm.to_agent == "orchestrator"))
            = [⟨"remediation", "orchestrator", terminalKind m, m, "trace-1"⟩]
        ∧ (terminalKind m = .escalate
            ↔ pyTruthyOpt (terminalApproval m) = true) :=
  C9_terminal_escalation stubBackend gwOk sampleAlert "trace-1" initSt rfl


/-! ## Orchestrator evaluation -/

theorem buildReportE_empty (iid : String) (alert : Alert) (tid : String)
    (dur : ℚ) (st : OrchSt) :
    buildReportE iid alert tid dur (.obj []) (.obj []) (.obj []) st
      = .ok { incident_id := iid, alert := alert,
              summary := "Analysis incomplete",
              root_cause := "Could not determine root cause",
              confidence_score := 0, remediation_steps := [],
              agent_trace := getTraceSt st tid,
              total_tokens := getTotalTokens st tid,
              total_cost_usd := getTotalCost st tid,
              duration_seconds := dur, requires_human_approval := true } := rfl

theorem buildReportE_wellFormed (iid : String) (alert : Alert) (tid : String)
    (dur : ℚ) (tri res rem : Json) (st : OrchSt) (rep : IncidentReport)
    (h : buildReportE iid alert tid dur tri res rem st = .ok rep) :
    wellFormedReport rep := by
  obtain ⟨htr, htok, hcost, ⟨o, _, hclamp⟩, _⟩ :=
    buildReportE_ok iid alert tid dur tri res rem st rep h
  obtain ⟨hc0, hc1⟩ := clampConfidenceE_bounds o rep.confidence_score hclamp
  refine ⟨hc0, hc1, ?_, ?_⟩
  · rw [htr, htok]
    rfl
  · rw [htr, hcost]
    rfl

theorem analyze_eval_ok (B : Backend) (g : Gateway) (iid tid : String)
    (alert : Alert) (dur : ℚ) (st st1 : OrchSt) (t r m : Json)
    (hp : (runPipeline B g alert tid)
        { st with traces := assocSet tid [] st.traces } = (.ok (t, r, m), st1)) :
    (analyze B g iid tid alert dur) st
      = (buildReportE iid alert tid dur t r m st1, st1) := by
  unfold analyze
  simp only [bind_def, M.bind, startTraceM, M.modify, M.attempt, hp,
    pure_def, M.pure, buildReport]

theorem analyze_eval_exc (B : Backend) (g : Gateway) (iid tid : String)
    (alert : Alert) (dur : ℚ) (st st1 : OrchSt) (msg : String)
    (hp : (runPipeline B g alert tid)
        { st with traces := assocSet tid [] st.traces }
        = (.error (.exc msg), st1)) :
    (analyze B g iid tid alert dur) st
      = (buildReportE iid alert tid dur (.obj []) (.obj []) (.obj [])
           (logStepSt tid "orchestrator" "error" ("Analysis failed: " ++ msg)
             [] 0 0 st1),
         logStepSt tid "orchestrator" "error" ("Analysis failed: " ++ msg)
           [] 0 0 st1) := by
  unfold analyze
  simp only [bind_def, M.bind, startTraceM, M.modify, M.attempt, hp,
    logStep_apply, pure_def, M.pure, buildReport]

theorem analyze_eval_timeout (B : Backend) (g : Gateway) (iid tid : String)
    (alert : Alert) (dur : ℚ) (st st1 : OrchSt)
    (hp : (runPipeline B g alert tid)
        { st with traces := assocSet tid [] st.traces }
        = (.error .timeoutFired, st1)) :
    (analyze B g iid tid alert dur) st
      = (buildReportE iid alert tid dur (.obj []) (.obj []) (.obj [])
           (logStepSt tid "orchestrator" "timeout"
             "Analysis exceeded 120s timeout" [] 0 0 st1),
         logStepSt tid "orchestrator" "timeout"
           "Analysis exceeded 120s timeout" [] 0 0 st1) := by
  unfold analyze
  simp only [bind_def, M.bind, startTraceM, M.modify, M.attempt, hp,
    logStep_apply, pure_def, M.pure, buildReport]

/-- C1 counterexample: a gateway whose research answer is valid JSON with a
string-valued confidence makes analyze raise a TypeError during report
assembly (the min/max clamp compares a str with a float outside the
orchestrator's try/except), so analyze does not return a report for every
gateway behaviour. -/
theorem C1_cex_analyze_raises :
    (((analyze stubBackend gwBadConf "INC-1" "trace-1" sampleAlert 0)
        initSt).1).isOk = false := rfl

/-- C1 amended: whenever analyze does return, the report is well formed;
a pipeline that raises an ordinary exception — in particular under a
gateway that raises on every call — still yields a well-formed report with
an "error" trace step, and a fired deadline yields one with a "timeout"
step; but report assembly runs outside the try/except, and ill-typed parsed
stage fields (e.g. a non-numeric confidence) make analyze itself raise. -/
theorem C1_amended_analyze :
    ∀ (B : Backend) (g : Gateway) iid tid alert dur st,
      (∀ rep, ((analyze B g iid tid alert dur) st).1 = .ok rep →
          wellFormedReport rep)
        ∧ (∀ msg st1,
            (runPipeline B g alert tid)
                { st with traces := assocSet tid [] st.traces }
              = (.error (.exc msg), st1) →
            ∃ rep, ((analyze B g iid tid alert dur) st).1 = .ok rep
              ∧ wellFormedReport rep
              ∧ ∃ s ∈ rep.agent_trace, s.action = "error")
        ∧ (∀ st1,
            (runPipeline B g alert tid)
                { st with traces := assocSet tid [] st.traces }
              = (.error .timeoutFired, st1) →
            ∃ rep, ((analyze B g iid tid alert dur) st).1 = .ok rep
              ∧ wellFormedReport rep
              ∧ ∃ s ∈ rep.agent_trace, s.action = "timeout") := by
  intro B g iid tid alert dur st
  refine ⟨?_, ?_, ?_⟩
  · intro rep hrep
    rcases hp : (runPipeline B g alert tid)
        { st with traces := assocSet tid [] st.traces } with ⟨pr, st1⟩
    cases pr with
    | ok trip =>
      obtain ⟨t, rr, m⟩ := trip
      rw [analyze_eval_ok B g iid tid alert dur st st1 t rr m hp] at hrep
      exact buildReportE_wellFormed iid alert tid dur t rr m st1 rep hrep
    | error e =>
      cases e with
      | exc msg =>
        rw [analyze_eval_exc B g iid tid alert dur st st1 msg hp] at hrep
        exact buildReportE_wellFormed iid alert tid dur _ _ _ _ rep hrep
      | timeoutFired =>
        rw [analyze_eval_timeout B g iid tid alert dur st st1 hp] at hrep
        exact buildReportE_wellFormed iid alert tid dur _ _ _ _ rep hrep
  · intro msg st1 hp
    rw [analyze_eval_exc B g iid tid alert dur st st1 msg hp,
      buildReportE_empty]
    refine ⟨_, rfl, ?_, ?_⟩
    · exact buildReportE_wellFormed iid alert tid dur _ _ _ _ _
        (buildReportE_empty iid alert tid dur _)
    · refine ⟨logStepStep "orchestrator" "error"
        ("Analysis failed: " ++ msg) [] 0 0, ?_, rfl⟩
      show _ ∈ getTraceSt (logStepSt tid "orchestrator" "error"
        ("Analysis failed: " ++ msg) [] 0 0 st1) tid
      rw [logStep_getTrace]
      exact List.mem_append_right _ (List.mem_singleton.mpr rfl)
  · intro st1 hp
    rw [analyze_eval_timeout B g iid tid alert dur st st1 hp,
      buildReportE_empty]
    refine ⟨_, rfl, ?_, ?_⟩
    · exact buildReportE_wellFormed iid alert tid dur _ _ _ _ _
        (buildReportE_empty iid alert tid dur _)
    · refine ⟨logStepStep "orchestrator" "timeout"
        "Analysis exceeded 120s timeout" [] 0 0, ?_, rfl⟩
      show _ ∈ getTraceSt (logStepSt tid "orchestrator" "timeout"
        "Analysis exceeded 120s timeout" [] 0 0 st1) tid
      rw [logStep_getTrace]
      exact List.mem_append_right _ (List.mem_singleton.mpr rfl)

set_option maxHeartbeats 1000000 in
/-- C1 witness: under the gateway that raises on every call, analyze
returns a well-formed report whose trace contains an "error" step. -/
theorem C1_amended_analyze_witness :
    ∃ rep, ((analyze stubBackend gwRaise "INC-1" "trace-1" sampleAlert 0)
        initSt).1 = .ok rep
      ∧ wellFormedReport rep
      ∧ ∃ s ∈ rep.agent_trace, s.action = "error" :=
  (C1_amended_analyze stubBackend gwRaise "INC-1" "trace-1" sampleAlert 0
    initSt).2.1 "boom" _ rfl

/-! ## Streaming evaluation -/

theorem emitQ_apply (ev : StreamEvent) (st : OrchSt) :
    (emitQ ev) st = (.ok (), { st with queue := st.queue ++ [ev] }) := rfl

theorem isDone_mkToolCallEvent (sg : String) (tc : ToolCallRec) :
    isDoneEv (mkToolCallEvent sg tc) = false := rfl

theorem isDone_kv (t : String) (a : Option String) (kvs : List (String × Json)) :
    isDoneEv ⟨t, a, .kv kvs⟩ = false := rfl

theorem isDone_empty (t : String) (a : Option String) :
    isDoneEv ⟨t, a, .emptyD⟩ = false := rfl

theorem isDone_done (t : String) (a : Option String) :
    isDoneEv ⟨t, a, .doneSentinel⟩ = true := rfl


theorem stageEffect_of_run (x : M Json) (st st1 : OrchSt) (r : Except PyErr Json)
    (h : x st = (r, st1)) (hE : StageEffect st (x st).2) : StageEffect st st1 := by
  rw [h] at hE
  exact hE

/-- The queue shape a successful `_streaming_pipeline` leaves behind. -/
theorem streamBody_ok_queue (B : Backend) (g : Gateway) (alert : Alert)
    (tid : String) (st0 stF : OrchSt)
    (h : (streamBody B g alert tid) st0 = (.ok (), stF)) :
    ∃ T R Mv c1 c2 c3,
      stF.queue = st0.queue
        ++ [⟨"agent_start", some "triage", .emptyD⟩] ++ T
        ++ [⟨"agent_complete", some "triage", .kv c1⟩,
            ⟨"agent_start", some "research", .emptyD⟩] ++ R
        ++ [⟨"agent_complete", some "research", .kv c2⟩,
            ⟨"agent_start", some "remediation", .emptyD⟩] ++ Mv
        ++ [⟨"agent_complete", some "remediation", .kv c3⟩]
      ∧ (∀ e ∈ T, ∃ sg tc, e = mkToolCallEvent sg tc)
      ∧ (∀ e ∈ R, ∃ sg tc, e = mkToolCallEvent sg tc)
      ∧ (∀ e ∈ Mv, ∃ sg tc, e = mkToolCallEvent sg tc) := by
  unfold streamBody at h
  simp only [bind_def, M.bind, emitQ, M.modify, M.read, liftE, busSend_apply,
    pure_def, M.pure] at h
  split at h
  · rename_i t st1 heq1
    split at h
    · rename_i r st2 heq2
      split at h
      · rename_i m st3 heq3
        split at h
        · rename_i o heq4
          rw [Prod.mk.injEq] at h heq4
          obtain ⟨-, hF⟩ := h
          obtain ⟨-, ho⟩ := heq4
          subst hF
          subst ho
          have E1 := stageEffect_of_run (triageRun B g alert tid) _ _ _ heq1
            (triageRun_effect B g alert tid _)
          have E2 := stageEffect_of_run (researchRun B g t tid) _ _ _ heq2
            (researchRun_effect B g t tid _)
          have E3 := stageEffect_of_run (remediationRun B g r tid) _ _ _ heq3
            (remediationRun_effect B g r tid _)
          obtain ⟨-, -, T, hq1, hT⟩ := E1
          obtain ⟨-, -, R, hq2, hR⟩ := E2
          obtain ⟨-, -, Mv, hq3, hM⟩ := E3
          refine ⟨T, R, Mv,
            [("tokens_used", Json.num (getTotalTokens { st1 with sT := t } tid))],
            [("tokens_used", Json.num (getTotalTokens { st2 with sR := r } tid))],
            [("tokens_used", Json.num (getTotalTokens { st3 with sM := m } tid))],
            ?_, hT, hR, hM⟩
          simp only [hq1, hq2, hq3, List.append_assoc, List.cons_append,
            List.singleton_append, List.nil_append]
        · simp at h
      · simp at h
    · simp at h
  · simp at h

/-- C7: on a successful streaming run the yielded sequence is, in order:
triage start, triage tool_call events, triage complete, research start,
research tool_call events, research complete, remediation start,
remediation tool_call events, remediation complete, and a final
analysis_complete event carrying the assembled report — so each stage's
start strictly precedes its complete, stages appear in pipeline order, and
exactly one analysis_complete event occurs, at the end. -/
theorem C7_stream_event_ordering :
    ∀ (B : Backend) (g : Gateway) (iid tid : String) (alert : Alert) (dur : ℚ)
      (st : OrchSt),
      ((streamBody B g alert tid) (streamInitSt tid st)).1 = .ok () →
      (((analyzeStream B g iid tid alert dur) st).1).isOk = true →
      ∃ T R Mv c1 c2 c3 rep,
        streamYields B g iid tid alert dur st
          = [⟨"agent_start", some "triage", .emptyD⟩] ++ T
            ++ [⟨"agent_complete", some "triage", .kv c1⟩,
                ⟨"agent_start", some "research", .emptyD⟩] ++ R
            ++ [⟨"agent_complete", some "research", .kv c2⟩,
                ⟨"agent_start", some "remediation", .emptyD⟩] ++ Mv
            ++ [⟨"agent_complete", some "remediation", .kv c3⟩,
                ⟨"analysis_complete", none, .reportPayload rep⟩]
          ∧ (∀ e ∈ T ++ R ++ Mv, e.event_type = "tool_call")
          ∧ (streamYields B g iid tid alert dur st).countP
              (fun e => e.event_type == "analysis_complete") = 1 := by
  intro B g iid tid alert dur st hbody hok
  rcases hb : (streamBody B g alert tid) (streamInitSt tid st) with ⟨rb, stF⟩
  rw [hb] at hbody
  obtain rfl : rb = .ok () := hbody
  obtain ⟨T, R, Mv, c1, c2, c3, hq, hT, hR, hM⟩ :=
    streamBody_ok_queue B g alert tid _ stF hb
  rcases hbr : buildReportE iid alert tid dur stF.sT stF.sR stF.sM
      { stF with queue := stF.queue ++ [⟨"error", none, EvData.doneSentinel⟩] }
    with e | rep
  · exfalso
    have hA : ((analyzeStream B g iid tid alert dur) st).1 = .error e := by
      unfold analyzeStream
      simp only [bind_def, M.bind, M.modify, M.attempt, hb, emitQ, M.read,
        pure_def, M.pure, buildReport, hbr]
    rw [hA] at hok
    simp [Except.isOk, Except.toBool] at hok
  · have hA : ((analyzeStream B g iid tid alert dur) st).1
        = .ok (((stF.queue
              ++ [(⟨"error", none, EvData.doneSentinel⟩ : StreamEvent)]).filter
            (fun ev => !isDoneEv ev))
          ++ [(⟨"analysis_complete", none,
                .reportPayload rep⟩ : StreamEvent)]) := by
      unfold analyzeStream
      simp only [bind_def, M.bind, M.modify, M.attempt, hb, emitQ, M.read,
        pure_def, M.pure, buildReport, hbr]
    have fT : T.filter (fun ev => !isDoneEv ev) = T :=
      List.filter_eq_self.mpr (fun e he => by
        obtain ⟨sg, tc, rfl⟩ := hT e he
        rfl)
    have fR : R.filter (fun ev => !isDoneEv ev) = R :=
      List.filter_eq_self.mpr (fun e he => by
        obtain ⟨sg, tc, rfl⟩ := hR e he
        rfl)
    have fM : Mv.filter (fun ev => !isDoneEv ev) = Mv :=
      List.filter_eq_self.mpr (fun e he => by
        obtain ⟨sg, tc, rfl⟩ := hM e he
        rfl)
    have cT : T.countP (fun e => e.event_type == "analysis_complete") = 0 :=
      List.countP_eq_zero.mpr (fun e he => by
        obtain ⟨sg, tc, rfl⟩ := hT e he
        simp [mkToolCallEvent])
    have cR : R.countP (fun e => e.event_type == "analysis_complete") = 0 :=
      List.countP_eq_zero.mpr (fun e he => by
        obtain ⟨sg, tc, rfl⟩ := hR e he
        simp [mkToolCallEvent])
    have cM : Mv.countP (fun e => e.event_type == "analysis_complete") = 0 :=
      List.countP_eq_zero.mpr (fun e he => by
        obtain ⟨sg, tc, rfl⟩ := hM e he
        simp [mkToolCallEvent])
    have hmain : streamYields B g iid tid alert dur st
        = [⟨"agent_start", some "triage", .emptyD⟩] ++ T
          ++ [⟨"agent_complete", some "triage", .kv c1⟩,
              ⟨"agent_start", some "research", .emptyD⟩] ++ R
          ++ [⟨"agent_complete", some "research", .kv c2⟩,
              ⟨"agent_start", some "remediation", .emptyD⟩] ++ Mv
          ++ [⟨"agent_complete", some "remediation", .kv c3⟩,
              ⟨"analysis_complete", none, .reportPayload rep⟩] := by
      unfold streamYields
      rw [hA]
      show ((stF.queue
            ++ [(⟨"error", none, EvData.doneSentinel⟩ : StreamEvent)]).filter
          (fun ev => !isDoneEv ev))
          ++ [(⟨"analysis_complete", none,
                .reportPayload rep⟩ : StreamEvent)] = _
      rw [hq]
      simp [streamInitSt, List.filter_append, List.filter_cons, fT, fR, fM,
        isDone_kv, isDone_empty, isDone_done, List.append_assoc]
    refine ⟨T, R, Mv, c1, c2, c3, rep, hmain, ?_, ?_⟩
    · intro e he
      rcases List.mem_append.mp he with h1 | h3
      · rcases List.mem_append.mp h1 with h1a | h2
        · obtain ⟨sg, tc, rfl⟩ := hT e h1a
          rfl
        · obtain ⟨sg, tc, rfl⟩ := hR e h2
          rfl
      · obtain ⟨sg, tc, rfl⟩ := hM e h3
        rfl
    · rw [hmain]
      simp [List.countP_append, List.countP_cons, cT, cR, cM]

set_option maxHeartbeats 1000000 in
/-- Staged evaluation of the streaming pipeline body under `gwOk`. -/
theorem C7w_pair :
    (streamBody stubBackend gwOk sampleAlert "trace-1")
        (streamInitSt "trace-1" initSt) = (.ok (), wF) := by
  have h1 : (triageRun stubBackend gwOk sampleAlert "trace-1")
      { streamInitSt "trace-1" initSt with
          queue := (streamInitSt "trace-1" initSt).queue
            ++ [⟨"agent_start", some "triage", .emptyD⟩] }
      = (.ok wT, wSt1) := by rfl
  have h2 : (researchRun stubBackend gwOk wT "trace-1")
      { wSt1 with
          queue := wSt1.queue
            ++ [⟨"agent_complete", some "triage",
                  .kv [("tokens_used",
                        .num (getTotalTokens { wSt1 with sT := wT } "trace-1"))]⟩]
            ++ [⟨"agent_start", some "research", .emptyD⟩],
          bus := wSt1.bus ++ [⟨"triage", "research", .delegate, wT, "trace-1"⟩],
          sT := wT }
      = (.ok wR, wSt2) := by rfl
  have h3 : (remediationRun stubBackend gwOk wR "trace-1")
      { wSt2 with
          queue := wSt2.queue
            ++ [⟨"agent_complete", some "research",
                  .kv [("tokens_used",
                        .num (getTotalTokens { wSt2 with sR := wR } "trace-1"))]⟩]
            ++ [⟨"agent_start", some "remediation", .emptyD⟩],
          bus := wSt2.bus
            ++ [⟨"research", "remediation", .delegate, wR, "trace-1"⟩],
          sR := wR }
      = (.ok wM, wSt3) := by rfl
  have h4 : pyGetE wM "requires_human_approval" = .ok (some (.bool true)) := rfl
  unfold streamBody
  simp only [bind_def, M.bind, emitQ, M.modify, M.read, liftE, busSend_apply,
    pure_def, M.pure, h1, h2, h3, h4]
  all_goals rfl

set_option maxHeartbeats 1000000 in
/-- The `gwOk` streaming run returns its event list without raising. -/
theorem C7w_ok :
    (((analyzeStream stubBackend gwOk "INC-1" "trace-1" sampleAlert 0)
        initSt).1).isOk = true := by
  unfold analyzeStream
  simp only [bind_def, M.bind, M.modify, M.attempt, C7w_pair, emitQ, M.read,
    pure_def, M.pure, buildReport]
  all_goals rfl

set_option maxHeartbeats 1000000 in
/-- C7 witness: the three-answer gateway gives a successful streaming run. -/
theorem C7_stream_event_ordering_witness :
    ∃ T R Mv c1 c2 c3 rep,
      streamYields stubBackend gwOk "INC-1" "trace-1" sampleAlert 0 initSt
        = [⟨"agent_start", some "triage", .emptyD⟩] ++ T
          ++ [⟨"agent_complete", some "triage", .kv c1⟩,
              ⟨"agent_start", some "research", .emptyD⟩] ++ R
          ++ [⟨"agent_complete", some "research", .kv c2⟩,
              ⟨"agent_start", some "remediation", .emptyD⟩] ++ Mv
          ++ [⟨"agent_complete", some "remediation", .kv c3⟩,
              ⟨"analysis_complete", none, .reportPayload rep⟩]
        ∧ (∀ e ∈ T ++ R ++ Mv, e.event_type = "tool_call")
        ∧ (streamYields stubBackend gwOk "INC-1" "trace-1" sampleAlert 0
            initSt).countP
            (fun e => e.event_type == "analysis_complete") = 1 :=
  C7_stream_event_ordering stubBackend gwOk "INC-1" "trace-1" sampleAlert 0
    initSt (congrArg Prod.fst C7w_pair) C7w_ok

end Sentinel
